import Mathlib

/-!
Verification development for the penmon evapotranspiration library
(src/penmon/eto.py).  The Python module is embedded shallowly:

* raw per-day observations are `Option ℚ` (Python attributes that are
  `None` or a supplied number); Python truthiness (`if self.temp_min:`)
  is the `truthy` predicate below, under which both `None` and `0` are
  falsy;
* real-valued formulas are idealised over `ℝ`, with `math.cos`, `math.sin`,
  `math.tan`, `math.acos`, `math.sqrt`, `math.log` and float `**` mapped to
  the corresponding `Real` functions;
* Python `round(x, p)` is `pyround p x` (round half up; away from ties the
  two agree, and every rounding fact proved below is pinned away from ties);
* `math.acos` raising `ValueError` outside `[-1, 1]` is an `Option`;
* raised exceptions are `Except Err`, and the mutation ofching
  `station.days` performed by `Station.day_entry` is explicit state
  passing: the function returns the updated station next to its result;
* the process-wide flags `CHECK_RADIATION_RANGE` / `CHECK_SUNSHINE_HOURS_RANGE`
  are explicit `Bool` parameters `checkRad` / `checkSun`.
-/

namespace Penmon

open Real

/-- Python `round(x, p)` idealised over the reals: round to `p` decimal
digits, halves going up.  Python itself rounds the nearest *double* half
to even; all concrete roundings used below are proved to lie strictly
inside a bucket, where the two conventions coincide. -/
noncomputable def pyround (p : ℕ) (x : ℝ) : ℝ := (⌊x * 10 ^ p + 1 / 2⌋ : ℤ) / 10 ^ p

/-- Error kinds raised by the Python code: `invalidArgument` is the
`TypeError`/`ValueError` for a bad day number or unparseable date,
`outOfRange` the `ValueError` for radiation or sunshine hours above their
physical ceiling, `missingData` the `AttributeError` for missing
temperatures, `domainError` the `math domain error` of `acos`, and
`typeError` arithmetic on `None`. -/
inductive Err where
  | invalidArgument
  | outOfRange
  | missingData
  | domainError
  | typeError
deriving DecidableEq

/-- Reference crop, class `Crop` of the source (defaults of `Crop.__init__`). -/
structure Crop where
  resistance_a : ℚ := 208
  albedo : ℚ := 23 / 100
  height : ℚ := 12 / 100
deriving DecidableEq

/-- Climate assumptions, class `Climate` of the source. -/
structure Climate where
  interior_location : Bool
  coastal_location : Bool
  island_location : Bool
  arid_climate : Bool
  humid_climate : Bool
  dew_point_difference : ℚ
  average_wind_speed : ℚ
  k_rs : ℚ
deriving DecidableEq

/-- Defaults assigned in `Climate.__init__`. -/
def Climate.default : Climate :=
  { interior_location := true, coastal_location := false, island_location := false,
    arid_climate := true, humid_climate := false,
    dew_point_difference := 2, average_wind_speed := 2, k_rs := 16 / 100 }

/-- Method `Climate.interior`. -/
def Climate.interior (c : Climate) : Climate :=
  { c with interior_location := true, coastal_location := false, island_location := false,
           k_rs := 16 / 100 }

/-- Method `Climate.coastal`. -/
def Climate.coastal (c : Climate) : Climate :=
  { c with interior_location := false, coastal_location := true, island_location := false,
           k_rs := 19 / 100 }

/-- Method `Climate.island`. -/
def Climate.island (c : Climate) : Climate :=
  { c with interior_location := false, coastal_location := false, island_location := true,
           k_rs := 19 / 100 }

/-- Method `Climate.arid`. -/
def Climate.arid (c : Climate) : Climate :=
  { c with arid_climate := true, humid_climate := false, dew_point_difference := 2 }

/-- Method `Climate.humid`. -/
def Climate.humid (c : Climate) : Climate :=
  { c with arid_climate := false, humid_climate := true, dew_point_difference := 0 }

/-- Truthiness of a Python attribute holding `None` or a number: `None`
and `0` are falsy, everything else truthy. -/
def truthy : Option ℚ → Bool
  | none => false
  | some x => decide (x ≠ 0)

/-- One day of record, class `DayEntry` of the source.  The back reference
to the owning station is passed explicitly to every method that reads it;
`climate` is the snapshot `self.climate = station.climate` taken by
`DayEntry.__init__`. -/
structure DayEntry where
  day_number : ℤ
  temp_min : Option ℚ := none
  temp_max : Option ℚ := none
  temp_mean : Option ℚ := none
  humidity_mean : Option ℚ := none
  humidity_min : Option ℚ := none
  humidity_max : Option ℚ := none
  wind_speed : Option ℚ := none
  radiation_s : Option ℚ := none
  temp_dew : Option ℚ := none
  temp_dry : Option ℚ := none
  temp_wet : Option ℚ := none
  vapour_pressure : Option ℚ := none
  sunshine_hours : Option ℚ := none
  climate : Option Climate := none
deriving DecidableEq

/-- Weather station, class `Station` of the source.  `days` is the day
registry `self.days`; mutability of `climate` / `ref_crop` / `days` is
modelled by functional update of this record. -/
structure Station where
  latitude : ℚ
  altitude : ℤ
  anemometer_height : ℤ := 2
  climate : Option Climate := some Climate.default
  ref_crop : Crop := {}
  days : ℤ → Option DayEntry := fun _ => none

/-- Attribute `latitude_rad` computed by `Station.__init__`:
`round(pi / 180 * latitude, 3)`. -/
noncomputable def Station.latitude_rad (st : Station) : ℝ :=
  pyround 3 (Real.pi / 180 * (st.latitude : ℝ))

/-- Method `Station.atmospheric_pressure` (Eq. 7):
`round(101.3 * ((293 - 0.0065 * altitude) / 293) ** 5.26, 2)`. -/
noncomputable def Station.atmospheric_pressure (st : Station) : ℝ :=
  pyround 2 (101.3 * (((293 - 0.0065 * (st.altitude : ℝ)) / 293) ^ (5.26 : ℝ)))

/-- The unrounded atmospheric pressure, for the monotonicity analysis. -/
noncomputable def atmospheric_pressure_raw (a : ℤ) : ℝ :=
  101.3 * (((293 - 0.0065 * (a : ℝ)) / 293) ^ (5.26 : ℝ))

/-- Method `DayEntry.psychrometric_constant` (Eq. 8). -/
noncomputable def psychrometric_constant (st : Station) : ℝ :=
  pyround 6 (0.665 * (1 / 10 ^ 3) * st.atmospheric_pressure)

/-- Method `DayEntry.relative_sun_distance` (Eq. 23), a function of the
day number alone. -/
noncomputable def relative_sun_distance (dn : ℤ) : ℝ :=
  pyround 3 (1 + 0.033 * Real.cos (2 * Real.pi / 365 * (dn : ℝ)))

/-- Method `DayEntry.solar_declination` (Eq. 24). -/
noncomputable def solar_declination (dn : ℤ) : ℝ :=
  pyround 3 (0.409 * Real.sin (2 * Real.pi / 365 * (dn : ℝ) - 1.39))

/-- The argument handed to `math.acos` by `DayEntry.sunset_hour_angle`. -/
noncomputable def sunset_hour_angle_arg (st : Station) (dn : ℤ) : ℝ :=
  -1 * Real.tan st.latitude_rad * Real.tan (solar_declination dn)

open scoped Classical in
/-- Method `DayEntry.sunset_hour_angle` (Eq. 25).  `math.acos` raises
`ValueError: math domain error` when its argument lies outside `[-1, 1]`;
that error branch is the `none` case. -/
noncomputable def sunset_hour_angle (st : Station) (dn : ℤ) : Option ℝ :=
  if -1 ≤ sunset_hour_angle_arg st dn ∧ sunset_hour_angle_arg st dn ≤ 1 then
    some (pyround 3 (Real.arccos (sunset_hour_angle_arg st dn)))
  else none

/-- Method `DayEntry.r_a` (Eq. 21), extraterrestrial radiation; `none`
exactly when `sunset_hour_angle` raised. -/
noncomputable def r_a (st : Station) (dn : ℤ) : Option ℝ :=
  (sunset_hour_angle st dn).map fun ω =>
    pyround 1 (24 * 60 / Real.pi * 0.0820 * relative_sun_distance dn *
      (ω * Real.sin st.latitude_rad * Real.sin (solar_declination dn) +
       Real.cos st.latitude_rad * Real.cos (solar_declination dn) * Real.sin ω))

/-- Method `DayEntry.daylight_hours` (Eq. 34). -/
noncomputable def daylight_hours (st : Station) (dn : ℤ) : Option ℝ :=
  (sunset_hour_angle st dn).map fun ω => pyround 1 (24 / Real.pi * ω)

open scoped Classical in
/-- Method `DayEntry.clear_sky_rad` (Eq. 36 below 100 m, Eq. 37 above). -/
noncomputable def clear_sky_rad (st : Station) (dn : ℤ) : Option ℝ :=
  (r_a st dn).map fun ra =>
    if st.altitude < 100 then pyround 1 ((0.25 + 0.50) * ra)
    else pyround 1 ((0.75 + 0.00002 * (st.altitude : ℝ)) * ra)

open scoped Classical in
/-- Method `DayEntry.wind_speed_2m`.  A logged wind speed (truthy) is
returned as is at anemometer height 2, otherwise log-profile corrected
(Eq. 47); with no logged wind speed the station's *current* climate is
consulted for `average_wind_speed`, and the result is `None` when the
climate is absent. -/
noncomputable def wind_speed_2m (st : Station) (d : DayEntry) : Option ℝ :=
  if truthy d.wind_speed then
    if st.anemometer_height = 2 then some ((d.wind_speed.getD 0 : ℚ) : ℝ)
    else some (pyround 1 (((d.wind_speed.getD 0 : ℚ) : ℝ) *
      (4.87 / Real.log (67.8 * (st.anemometer_height : ℝ) - 5.42))))
  else
    match st.climate with
    | some c => some ((c.average_wind_speed : ℚ) : ℝ)
    | none => none

/-- Method `DayEntry.dew_point`.  Returns logged `temp_dew` (truthy), else
estimates from `temp_min` and the climate snapshot `self.climate` taken at
registration time; the Python `return False` of the exhausted chain and an
implicit `None` are both falsy and map to `none`. -/
def DayEntry.dew_point (d : DayEntry) : Option ℚ :=
  if truthy d.temp_dew then d.temp_dew
  else
    match d.climate with
    | some c =>
      if truthy d.temp_min then some (d.temp_min.getD 0 - c.dew_point_difference) else none
    | none => none

/-- Method `DayEntry.interpolate_temp_mean` (Eq. 9). -/
def DayEntry.interpolate_temp_mean (d : DayEntry) : Option ℚ :=
  if truthy d.temp_mean then d.temp_mean
  else if truthy d.temp_max && truthy d.temp_min then
    some ((d.temp_max.getD 0 + d.temp_min.getD 0) / 2)
  else none

/-- Method `DayEntry.saturation_vapour_pressure` (Eq. 11):
`round(0.6108 * 2.7183 ** (17.27 * t / (t + 237.3)), 3)`. -/
noncomputable def saturation_vapour_pressure (temp : ℝ) : ℝ :=
  pyround 3 (0.6108 * (2.7183 : ℝ) ^ (17.27 * temp / (temp + 237.3)))

/-- Method `DayEntry.slope_of_saturation_vapour_pressure` (Eq. 13). -/
noncomputable def slope_of_saturation_vapour_pressure (temp : ℝ) : ℝ :=
  pyround 6 (4098 * (0.6108 * (2.7183 : ℝ) ^ (17.27 * temp / (temp + 237.3))) /
    (temp + 237.3) ^ 2)

/-- Method `DayEntry.mean_saturation_vapour_pressure` (Eq. 12): implicit
`None` when neither min/max temperatures nor a mean are truthy. -/
noncomputable def mean_saturation_vapour_pressure (d : DayEntry) : Option ℝ :=
  if truthy d.temp_max && truthy d.temp_min then
    some ((saturation_vapour_pressure ((d.temp_max.getD 0 : ℚ) : ℝ) +
           saturation_vapour_pressure ((d.temp_min.getD 0 : ℚ) : ℝ)) / 2)
  else if truthy d.temp_mean then
    some (saturation_vapour_pressure ((d.temp_mean.getD 0 : ℚ) : ℝ))
  else none

/-- Method `DayEntry.actual_vapour_pressure` with its full fallback chain
(Eqs. 15, 17, 18, 19, 14); every branch guard is Python truthiness, and an
exhausted chain is the implicit `None`. -/
noncomputable def actual_vapour_pressure (st : Station) (d : DayEntry) : Option ℝ :=
  if truthy d.vapour_pressure then some ((d.vapour_pressure.getD 0 : ℚ) : ℝ)
  else if truthy d.temp_dry && truthy d.temp_wet then
    some (pyround 3 (saturation_vapour_pressure ((d.temp_wet.getD 0 : ℚ) : ℝ) -
      psychrometric_constant st * (((d.temp_dry.getD 0 : ℚ) : ℝ) - ((d.temp_wet.getD 0 : ℚ) : ℝ))))
  else if truthy d.humidity_max && truthy d.humidity_min &&
          truthy d.temp_max && truthy d.temp_min then
    some (pyround 3 ((saturation_vapour_pressure ((d.temp_min.getD 0 : ℚ) : ℝ) *
        (((d.humidity_max.getD 0 : ℚ) : ℝ) / 100) +
      saturation_vapour_pressure ((d.temp_max.getD 0 : ℚ) : ℝ) *
        (((d.humidity_min.getD 0 : ℚ) : ℝ) / 100)) / 2))
  else if truthy d.humidity_max && truthy d.temp_min then
    some (pyround 3 (saturation_vapour_pressure ((d.temp_min.getD 0 : ℚ) : ℝ) *
      (((d.humidity_max.getD 0 : ℚ) : ℝ) / 100)))
  else if truthy d.humidity_mean && truthy d.temp_max && truthy d.temp_min then
    some (pyround 3 ((((d.humidity_mean.getD 0 : ℚ) : ℝ) / 100) *
      ((saturation_vapour_pressure ((d.temp_max.getD 0 : ℚ) : ℝ) +
        saturation_vapour_pressure ((d.temp_min.getD 0 : ℚ) : ℝ)) / 2)))
  else if truthy d.dew_point then
    some (pyround 3 (saturation_vapour_pressure ((d.dew_point.getD 0 : ℚ) : ℝ)))
  else none

/-- Method `DayEntry.vapour_pressure_deficit`; implicit `None` without
min/max temperatures.  A `None` actual vapour pressure would crash the
Python subtraction; that is folded into `none` here (no settled claim
depends on the branch). -/
noncomputable def vapour_pressure_deficit (st : Station) (d : DayEntry) : Option ℝ :=
  if truthy d.temp_min && truthy d.temp_max then
    (actual_vapour_pressure st d).map fun ea =>
      pyround 3 ((saturation_vapour_pressure ((d.temp_min.getD 0 : ℚ) : ℝ) +
                  saturation_vapour_pressure ((d.temp_max.getD 0 : ℚ) : ℝ)) / 2 - ea)
  else none

/-- Method `DayEntry.relative_humidity` (the helper used by
`relative_humidity_mean`). -/
noncomputable def relative_humidity (st : Station) (d : DayEntry) (T : ℝ) : Option ℝ :=
  (actual_vapour_pressure st d).map fun ea =>
    pyround 3 (100 * (ea / saturation_vapour_pressure T))

/-- Method `DayEntry.relative_humidity_mean`.  Unlike the truthiness-based
chains, this method tests its raw fields with `is not None`, so a supplied
`0` is used.  The third branch computes through `relative_humidity`; a
`None` vapour pressure there would crash and is folded to `none`. -/
noncomputable def relative_humidity_mean (st : Station) (d : DayEntry) : Option ℝ :=
  match d.humidity_mean with
  | some h => some ((h : ℚ) : ℝ)
  | none =>
    if d.humidity_min.isSome && d.humidity_max.isSome then
      some (pyround 0 ((((d.humidity_max.getD 0 : ℚ) : ℝ) + ((d.humidity_min.getD 0 : ℚ) : ℝ)) / 2))
    else if d.temp_min.isSome && d.temp_max.isSome then
      match relative_humidity st d ((d.temp_min.getD 0 : ℚ) : ℝ),
            relative_humidity st d ((d.temp_max.getD 0 : ℚ) : ℝ) with
      | some a, some b => some (pyround 0 ((a + b) / 2))
      | _, _ => none
    else none

open scoped Classical in
/-- The common tail of `DayEntry.solar_radiation`: the Angstrom formula
(Eq. 35) applied to an observed or defaulted sunshine duration `n`,
including the `n < 0` guard and the `n > N` range check gated by
`CHECK_SUNSHINE_HOURS_RANGE`. -/
noncomputable def angstrom_path (checkSun : Bool) (st : Station) (dn : ℤ) (n : ℝ) :
    Except Err ℝ :=
  if n < 0 then .error .invalidArgument
  else
    match daylight_hours st dn, r_a st dn with
    | some N, some ra =>
      if N < n ∧ checkSun = true then .error .outOfRange
      else .ok (pyround 1 ((0.25 + 0.50 * n / N) * ra))
    | _, _ => .error .domainError

open scoped Classical in
/-- Method `DayEntry.solar_radiation`.  A truthy logged `radiation_s` is
validated against the clear-sky ceiling (when `CHECK_RADIATION_RANGE`) and
returned.  Otherwise, *only when `sunshine_hours is None`*: the island
simplification (Eq. 51) when the station's current climate is an island
location below 100 m, else the Hargreaves-Samani formula (Eq. 50) when a
climate and truthy min/max temperatures exist — with the local `krs`
being 0.19 for a coastal location and 0.16 otherwise — else the Angstrom
formula with `n = N`.  A supplied `sunshine_hours` goes straight to the
Angstrom formula. -/
noncomputable def solar_radiation (checkRad checkSun : Bool) (st : Station) (d : DayEntry) :
    Except Err ℝ :=
  if truthy d.radiation_s then
    if checkRad then
      match clear_sky_rad st d.day_number with
      | none => .error .domainError
      | some rso =>
        if rso < ((d.radiation_s.getD 0 : ℚ) : ℝ) then .error .outOfRange
        else .ok ((d.radiation_s.getD 0 : ℚ) : ℝ)
    else .ok ((d.radiation_s.getD 0 : ℚ) : ℝ)
  else
    match d.sunshine_hours with
    | some s => angstrom_path checkSun st d.day_number ((s : ℚ) : ℝ)
    | none =>
      match st.climate with
      | some c =>
        if c.island_location = true ∧ st.altitude < 100 then
          match r_a st d.day_number with
          | none => .error .domainError
          | some ra => .ok (pyround 1 (0.7 * ra - 4))
        else if truthy d.temp_min && truthy d.temp_max then
          match r_a st d.day_number with
          | none => .error .domainError
          | some ra =>
            .ok (pyround 1 ((if c.coastal_location = true then (0.19 : ℝ)
                             else if c.interior_location = true then 0.16 else 0.16) *
              Real.sqrt (((d.temp_max.getD 0 : ℚ) : ℝ) - ((d.temp_min.getD 0 : ℚ) : ℝ)) * ra))
        else
          match daylight_hours st d.day_number with
          | none => .error .domainError
          | some N => angstrom_path checkSun st d.day_number N
      | none =>
        match daylight_hours st d.day_number with
        | none => .error .domainError
        | some N => angstrom_path checkSun st d.day_number N

/-- Method `DayEntry.net_solar_rad` (Eq. 38). -/
noncomputable def net_solar_rad (checkRad checkSun : Bool) (st : Station) (d : DayEntry) :
    Except Err ℝ :=
  (solar_radiation checkRad checkSun st d).map fun rs =>
    pyround 1 ((1 - ((st.ref_crop.albedo : ℚ) : ℝ)) * rs)

/-- The Stefan-Boltzmann constant attribute of `DayEntry.__init__`. -/
noncomputable def stephan_boltzmann_constant : ℝ := 4.903 * (1 / 10 ^ 9)

/-- Method `DayEntry.net_longwave_rad` (Eq. 39): raises `AttributeError`
without truthy min/max temperatures; `math.sqrt` of a `None` vapour
pressure is a `TypeError`. -/
noncomputable def net_longwave_rad (checkRad checkSun : Bool) (st : Station) (d : DayEntry) :
    Except Err ℝ :=
  if ¬(truthy d.temp_max && truthy d.temp_min) then .error .missingData
  else
    match actual_vapour_pressure st d with
    | none => .error .typeError
    | some ea =>
      match solar_radiation checkRad checkSun st d, clear_sky_rad st d.day_number with
      | .ok rs, some rso =>
        .ok (pyround 1 (stephan_boltzmann_constant *
          (((((d.temp_max.getD 0 : ℚ) : ℝ) + 273.16) ^ 4 +
            (((d.temp_min.getD 0 : ℚ) : ℝ) + 273.16) ^ 4) / 2) *
          (0.34 - 0.14 * Real.sqrt ea) * (1.35 * (rs / rso) - 0.35)))
      | .error e, _ => .error e
      | _, none => .error .domainError

/-- Method `DayEntry.net_radiation` (Eq. 40). -/
noncomputable def net_radiation (checkRad checkSun : Bool) (st : Station) (d : DayEntry) :
    Except Err ℝ := do
  let ns ← net_solar_rad checkRad checkSun st d
  let nl ← net_longwave_rad checkRad checkSun st d
  return pyround 1 (ns - nl)

/-- Method `DayEntry.soil_heat_flux`: the constant daily coefficient. -/
def soil_heat_flux : ℝ := 0

/-- Method `DayEntry.eto_hargreaves` (Eq. 52): arithmetic on a `None`
mean or min/max temperature is a `TypeError`. -/
noncomputable def eto_hargreaves (st : Station) (d : DayEntry) : Except Err ℝ :=
  match d.interpolate_temp_mean with
  | none => .error .typeError
  | some tm =>
    if d.temp_max.isSome && d.temp_min.isSome then
      match r_a st d.day_number with
      | none => .error .domainError
      | some ra =>
        .ok (pyround 2 (0.0023 * (((tm : ℚ) : ℝ) + 17.8) *
          (((d.temp_max.getD 0 : ℚ) : ℝ) - ((d.temp_min.getD 0 : ℚ) : ℝ)) ^ ((0.5 : ℝ)) * ra))
    else .error .typeError

open scoped Classical in
/-- Method `DayEntry.eto` (Eq. 6): falls back to Hargreaves when the 2 m
wind speed is falsy, raises `AttributeError` when the mean temperature is
`None`, else evaluates the full energy balance. -/
noncomputable def eto (checkRad checkSun : Bool) (st : Station) (d : DayEntry) :
    Except Err ℝ :=
  if wind_speed_2m st d = none ∨ wind_speed_2m st d = some 0 then eto_hargreaves st d
  else if d.interpolate_temp_mean = none then .error .missingData
  else
    match net_radiation checkRad checkSun st d with
    | .error e => .error e
    | .ok nr =>
      match vapour_pressure_deficit st d with
      | none => .error .typeError
      | some vpd =>
        let tm : ℝ := ((d.interpolate_temp_mean.getD 0 : ℚ) : ℝ)
        let dvp := slope_of_saturation_vapour_pressure tm
        let gamma := psychrometric_constant st
        let u2 := (wind_speed_2m st d).getD 0
        .ok (pyround 2 ((0.408 * dvp * (nr - soil_heat_flux) +
            gamma * (900 / (tm + 273)) * u2 * vpd) /
          (dvp + gamma * (1 + 0.34 * u2))))

/-- Gregorian leap-year rule used by `datetime`. -/
def isLeap (y : ℤ) : Bool := (y % 4 == 0 && y % 100 != 0) || (y % 400 == 0)

/-- Length of a month in the proleptic Gregorian calendar of `datetime`. -/
def daysInMonth (y m : ℤ) : ℤ :=
  if m = 2 then (if isLeap y then 29 else 28)
  else if m = 4 ∨ m = 6 ∨ m = 9 ∨ m = 11 then 30
  else 31

/-- Days of the year strictly before month `m`. -/
def monthOffset (y m : ℤ) : ℤ :=
  (if 1 < m then 31 else 0) + (if 2 < m then daysInMonth y 2 else 0) +
  (if 3 < m then 31 else 0) + (if 4 < m then 30 else 0) +
  (if 5 < m then 31 else 0) + (if 6 < m then 30 else 0) +
  (if 7 < m then 31 else 0) + (if 8 < m then 31 else 0) +
  (if 9 < m then 30 else 0) + (if 10 < m then 31 else 0) +
  (if 11 < m then 30 else 0)

/-- Day-of-year of a calendar date, the value `(dt1 - dt(year,1,1)).days + 1`
computed by `Station.day_entry` for a date string. -/
def dayOfYear (y m d : ℤ) : ℤ := monthOffset y m + d

/-- Validity of a calendar date as enforced by `datetime.strptime`. -/
def validDate (y m d : ℤ) : Bool :=
  1 ≤ y && 1 ≤ m && m ≤ 12 && 1 ≤ d && d ≤ daysInMonth y m

/-- Input to `Station.day_entry`: an integer day of year, a date string
already split by `strptime` into year, month and day fields, or a string
`strptime` fails to parse with the given format. -/
inductive DayInput where
  | num (n : ℤ)
  | date (y m d : ℤ)
  | badFormat
deriving DecidableEq

/-- Functional update of the day registry, modelling
`self.days[day_number] = day`. -/
def Station.insertDay (st : Station) (n : ℤ) (d : DayEntry) : Station :=
  { st with days := fun k => if k = n then some d else st.days k }

open scoped Classical in
/-- Tail of `Station.day_entry` after the radiation step: the
`sunshine_hours` validation and final insertion.  The record `day2` is
already in the registry (it was inserted before any field validation ran),
so every exit, error or not, leaves it there; only a successful
validation also stores the `sunshine_hours` value on it. -/
noncomputable def day_entry_sunshine (checkSun : Bool) (st : Station) (n : ℤ)
    (day2 : DayEntry) (sunshine_hours : Option ℚ) : Station × Except Err DayEntry :=
  if truthy sunshine_hours then
    if checkSun then
      match daylight_hours st n with
      | none => (st.insertDay n day2, .error .domainError)
      | some N =>
        if ((sunshine_hours.getD 0 : ℚ) : ℝ) ≤ N then
          (st.insertDay n { day2 with sunshine_hours := sunshine_hours },
           .ok { day2 with sunshine_hours := sunshine_hours })
        else (st.insertDay n day2, .error .outOfRange)
    else
      (st.insertDay n { day2 with sunshine_hours := sunshine_hours },
       .ok { day2 with sunshine_hours := sunshine_hours })
  else (st.insertDay n day2, .ok day2)

open scoped Classical in
/-- Body of `Station.day_entry` for an in-range integer day number: the
Python code creates the `DayEntry`, immediately inserts it into
`self.days`, assigns the plain raw fields, and only then validates
`radiation_s` (against `clear_sky_rad`, when `CHECK_RADIATION_RANGE`) and
`sunshine_hours`; an exception raised by either validation therefore still
leaves the new record registered, with the rejected field absent. -/
noncomputable def day_entry_go (checkRad checkSun : Bool) (st : Station) (n : ℤ)
    (temp_min temp_max temp_mean wind_speed humidity_mean humidity_min humidity_max
     radiation_s sunshine_hours : Option ℚ) : Station × Except Err DayEntry :=
  if n < 1 ∨ 366 < n then (st, .error .invalidArgument)
  else
    let day1 : DayEntry :=
      { day_number := n, temp_min := temp_min, temp_max := temp_max, temp_mean := temp_mean,
        humidity_min := humidity_min, humidity_max := humidity_max,
        humidity_mean := humidity_mean, wind_speed := wind_speed,
        climate := st.climate }
    if truthy radiation_s then
      if checkRad then
        match clear_sky_rad st n with
        | none => (st.insertDay n day1, .error .domainError)
        | some rso =>
          if ((radiation_s.getD 0 : ℚ) : ℝ) ≤ rso then
            day_entry_sunshine checkSun st n { day1 with radiation_s := radiation_s }
              sunshine_hours
          else (st.insertDay n day1, .error .outOfRange)
      else
        day_entry_sunshine checkSun st n { day1 with radiation_s := radiation_s }
          sunshine_hours
    else day_entry_sunshine checkSun st n day1 sunshine_hours

/-- Method `Station.day_entry`: resolves the input to an integer day of
year (parsing a date string via `strptime`, whose failure is
`invalidArgument`), range-checks it, then delegates to `day_entry_go`.
Returns the updated station (its mutated `days` registry) next to the
Python return value or raised exception. -/
noncomputable def Station.day_entry (checkRad checkSun : Bool) (st : Station)
    (input : DayInput)
    (temp_min temp_max temp_mean wind_speed humidity_mean humidity_min humidity_max
     radiation_s sunshine_hours : Option ℚ) : Station × Except Err DayEntry :=
  match input with
  | .badFormat => (st, .error .invalidArgument)
  | .date y m d =>
    if validDate y m d then
      day_entry_go checkRad checkSun st (dayOfYear y m d) temp_min temp_max temp_mean
        wind_speed humidity_mean humidity_min humidity_max radiation_s sunshine_hours
    else (st, .error .invalidArgument)
  | .num n =>
    day_entry_go checkRad checkSun st n temp_min temp_max temp_mean
      wind_speed humidity_mean humidity_min humidity_max radiation_s sunshine_hours

/-! ## Rounding toolkit -/

theorem pyround_eq {p : ℕ} {x : ℝ} {n : ℤ} (h1 : (n : ℝ) ≤ x * 10 ^ p + 1 / 2)
    (h2 : x * 10 ^ p + 1 / 2 < n + 1) : pyround p x = (n : ℝ) / 10 ^ p := by
  unfold pyround
  rw [Int.floor_eq_iff.mpr ⟨h1, h2⟩]

theorem pyround_le_add (p : ℕ) (x : ℝ) : pyround p x ≤ x + 1 / (2 * 10 ^ p) := by
  unfold pyround
  have h10 : (0 : ℝ) < 10 ^ p := by positivity
  rw [div_le_iff₀ h10]
  have hfl := Int.floor_le (x * 10 ^ p + 1 / 2)
  have hexp : (x + 1 / (2 * 10 ^ p)) * 10 ^ p = x * 10 ^ p + 1 / 2 := by
    field_simp
    ring
  linarith

theorem sub_lt_pyround (p : ℕ) (x : ℝ) : x - 1 / (2 * 10 ^ p) < pyround p x := by
  unfold pyround
  have h10 : (0 : ℝ) < 10 ^ p := by positivity
  rw [lt_div_iff₀ h10]
  have hfl := Int.sub_one_lt_floor (x * 10 ^ p + 1 / 2)
  have hexp : (x - 1 / (2 * 10 ^ p)) * 10 ^ p = x * 10 ^ p + 1 / 2 - 1 := by
    field_simp
    ring
  linarith

theorem pyround_mono (p : ℕ) {x y : ℝ} (h : x ≤ y) : pyround p x ≤ pyround p y := by
  unfold pyround
  have h10 : (0 : ℝ) < 10 ^ p := by positivity
  rw [div_le_div_iff_of_pos_right h10]
  exact_mod_cast Int.floor_le_floor (by nlinarith)

theorem pyround_nonneg (p : ℕ) {x : ℝ} (h : 0 ≤ x) : 0 ≤ pyround p x := by
  have := sub_lt_pyround p x
  have h10 : (0 : ℝ) < 10 ^ p := by positivity
  unfold pyround at *
  have hfl : (0 : ℤ) ≤ ⌊x * 10 ^ p + 1 / 2⌋ := by
    apply Int.floor_nonneg.mpr
    nlinarith
  positivity

/-! ## Claim C9: atmospheric pressure -/

theorem pressure_rounds_to_zero {a : ℤ} (h0 : (0 : ℝ) ≤ 0.0065 * (a : ℝ))
    (hlo : (0 : ℝ) < 293 - 0.0065 * (a : ℝ))
    (hhi : 101.3 * ((293 - 0.0065 * (a : ℝ)) / 293) ^ (5 : ℕ) < 1 / 200) :
    Station.atmospheric_pressure { latitude := 0, altitude := a } = 0 := by
  have hu0 : (0 : ℝ) < (293 - 0.0065 * (a : ℝ)) / 293 := by positivity
  have hu1 : (293 - 0.0065 * (a : ℝ)) / 293 ≤ 1 := by
    rw [div_le_one (by norm_num)]
    linarith
  have hmono : ((293 - 0.0065 * (a : ℝ)) / 293) ^ (5.26 : ℝ) ≤
      ((293 - 0.0065 * (a : ℝ)) / 293) ^ ((5 : ℕ) : ℝ) :=
    Real.rpow_le_rpow_of_exponent_ge hu0 hu1 (by norm_num)
  rw [Real.rpow_natCast] at hmono
  have hpos : (0 : ℝ) < ((293 - 0.0065 * (a : ℝ)) / 293) ^ (5.26 : ℝ) :=
    Real.rpow_pos_of_pos hu0 _
  show pyround 2 (101.3 * (((293 - 0.0065 * ((({ latitude := 0, altitude := a } :
    Station).altitude : ℤ) : ℝ)) / 293) ^ (5.26 : ℝ))) = 0
  have h0eq : ((0 : ℤ) : ℝ) / 10 ^ 2 = 0 := by norm_num
  rw [← h0eq]
  apply pyround_eq
  · push_cast
    nlinarith
  · push_cast
    nlinarith

/-- C9, counterexample.  `atmospheric_pressure` is not strictly decreasing
in altitude once rounding to 2 decimals is taken into account: at
altitudes 40000 and 40001 the function returns the same value (both round
to 0.00), although 40000 < 40001. -/
theorem c9_counterexample :
    Station.atmospheric_pressure { latitude := 0, altitude := 40000 } =
      Station.atmospheric_pressure { latitude := 0, altitude := 40001 } ∧
    (40000 : ℤ) < 40001 := by
  refine ⟨?_, by norm_num⟩
  rw [pressure_rounds_to_zero (a := 40000) (by norm_num) (by norm_num) (by norm_num),
      pressure_rounds_to_zero (a := 40001) (by norm_num) (by norm_num) (by norm_num)]

/-- C9, amended.  `atmospheric_pressure` returns exactly 101.3 kPa at
altitude 0; on altitudes up to 45000 m the *unrounded* pressure is
strictly decreasing, and the returned 2-decimal-rounded value is
(weakly) decreasing — strictness can be destroyed by the rounding, as the
counterexample shows. -/
theorem c9_amended :
    Station.atmospheric_pressure { latitude := 0, altitude := 0 } = 101.3 ∧
    ∀ a b : ℤ, 0 ≤ a → a < b → b ≤ 45000 →
      atmospheric_pressure_raw b < atmospheric_pressure_raw a ∧
      Station.atmospheric_pressure { latitude := 0, altitude := b } ≤
        Station.atmospheric_pressure { latitude := 0, altitude := a } := by
  constructor
  · show pyround 2 (101.3 * (((293 - 0.0065 * ((((0 : ℤ)) : ℤ) : ℝ)) / 293) ^ (5.26 : ℝ))) =
      101.3
    have hbase : ((293 - 0.0065 * (((0 : ℤ) : ℤ) : ℝ)) / 293) = 1 := by norm_num
    rw [hbase, Real.one_rpow]
    have : ((10130 : ℤ) : ℝ) / 10 ^ 2 = 101.3 := by norm_num
    rw [← this]
    apply pyround_eq <;> norm_num
  · intro a b ha hab hb
    have hub0 : (0 : ℝ) < 293 - 0.0065 * (b : ℝ) := by
      have : (b : ℝ) ≤ 45000 := by exact_mod_cast hb
      nlinarith
    have hba : (a : ℝ) < (b : ℝ) := by exact_mod_cast hab
    have hlt : (293 - 0.0065 * (b : ℝ)) / 293 < (293 - 0.0065 * (a : ℝ)) / 293 := by
      apply div_lt_div_of_pos_right ?_ (by norm_num)
      nlinarith
    have hraw : atmospheric_pressure_raw b < atmospheric_pressure_raw a := by
      unfold atmospheric_pressure_raw
      have := Real.rpow_lt_rpow (le_of_lt (by positivity : (0:ℝ) <
        (293 - 0.0065 * (b : ℝ)) / 293)) hlt (by norm_num : (0:ℝ) < 5.26)
      nlinarith
    refine ⟨hraw, ?_⟩
    show pyround 2 _ ≤ pyround 2 _
    exact pyround_mono 2 (le_of_lt hraw)

/-- C9, witness for the amended theorem, instantiated at altitudes 0 < 1. -/
theorem c9_amended_witness :
    atmospheric_pressure_raw 1 < atmospheric_pressure_raw 0 ∧
    Station.atmospheric_pressure { latitude := 0, altitude := 1 } ≤
      Station.atmospheric_pressure { latitude := 0, altitude := 0 } :=
  c9_amended.2 0 1 (by norm_num) (by norm_num) (by norm_num)

/-! ## Claim C6: zero-valued raw fields -/

/-- A day with a supplied mean temperature of 0 degrees and supplied
min/max temperatures. -/
def c6dayA : DayEntry := { day_number := 1, temp_min := some 10, temp_max := some 20,
                           temp_mean := some 0 }

/-- A day with a supplied maximum humidity of 0 percent and a supplied
minimum temperature, no climate snapshot. -/
def c6dayB : DayEntry := { day_number := 1, temp_min := some 10, humidity_max := some 0 }

/-- A climate-free station for the vapour pressure evaluation. -/
def c6st : Station := { latitude := 0, altitude := 0, climate := none }

/-- C6, counterexample.  A raw field supplied as 0 is *not* treated as
present: `interpolate_temp_mean` with a supplied `temp_mean = 0` averages
the min/max temperatures to 15 instead of returning 0, and
`actual_vapour_pressure` with a supplied `humidity_max = 0` falls through
the whole chain to `none` instead of resolving via the humidity formula
(which would give `some 0`). -/
theorem c6_counterexample :
    c6dayA.interpolate_temp_mean = some 15 ∧ some (15 : ℚ) ≠ some (0 : ℚ) ∧
    actual_vapour_pressure c6st c6dayB = none := by
  refine ⟨?_, by decide, ?_⟩
  · norm_num [c6dayA, DayEntry.interpolate_temp_mean, truthy]
  · simp [actual_vapour_pressure, c6dayB, truthy, DayEntry.dew_point]

/-- C6, amended.  The truthiness-guarded operations conflate a supplied 0
with absence: a day whose `temp_mean`, `humidity_max` or `wind_speed` is
supplied as 0 behaves exactly as if that field had not been supplied at
all, in `interpolate_temp_mean`, `actual_vapour_pressure` and
`wind_speed_2m` respectively.  Only `relative_humidity_mean` tests its
fields with `is not None` and does return a supplied `humidity_mean = 0`. -/
theorem c6_amended (st : Station) (d : DayEntry)
    (hm : d.temp_mean = some 0) (hh : d.humidity_max = some 0)
    (hw : d.wind_speed = some 0) :
    d.interpolate_temp_mean = DayEntry.interpolate_temp_mean { d with temp_mean := none } ∧
    actual_vapour_pressure st d =
      actual_vapour_pressure st { d with humidity_max := none } ∧
    wind_speed_2m st d = wind_speed_2m st { d with wind_speed := none } ∧
    relative_humidity_mean st { d with humidity_mean := some 0 } = some 0 := by
  refine ⟨?_, ?_, ?_, ?_⟩
  · simp [DayEntry.interpolate_temp_mean, hm, truthy]
  · simp [actual_vapour_pressure, hh, truthy, DayEntry.dew_point]
  · simp [wind_speed_2m, hw, truthy]
  · simp [relative_humidity_mean]

/-- C6, witness: the amended statement applied to the concrete day
`c6dayA` extended with the zero wind speed and humidity fields. -/
theorem c6_amended_witness :
    DayEntry.interpolate_temp_mean
        { c6dayA with humidity_max := some 0, wind_speed := some 0 } =
      DayEntry.interpolate_temp_mean
        { c6dayA with humidity_max := some 0, wind_speed := some 0, temp_mean := none } :=
  (c6_amended c6st { c6dayA with humidity_max := some 0, wind_speed := some 0 }
    rfl rfl rfl).1

/-! ## Claim C7: disabling the climate -/

/-- The default station used for the climate-removal analysis. -/
def c7st : Station := { latitude := 0, altitude := 0 }

/-- The day record produced by registering day 10 with `temp_min = 10` on
`c7st` while its default climate was still present: the climate snapshot
is captured by `DayEntry.__init__`. -/
def c7day : DayEntry := { day_number := 10, temp_min := some 10,
                          climate := some Climate.default }

/-- The same station after the caller sets `station.climate = None`. -/
def c7stNone : Station := { c7st with climate := none }

/-- C7, counterexample.  After the station's climate is set to absent, a
day registered *before* the change still estimates its dew point from the
climate snapshot captured at registration (19.5 − 2 pattern: here
10 − 2 = 8), even though the wind-speed fallback is indeed disabled; the
claim that every climate-dependent fallback is disabled for previously
registered days is false.  The registration itself is replayed to show
`c7day` is exactly what the registry holds. -/
theorem c7_counterexample :
    (Station.day_entry true true c7st (.num 10)
        (some 10) none none none none none none none none).2 = .ok c7day ∧
    wind_speed_2m c7stNone c7day = none ∧
    c7day.dew_point = some 8 := by
  refine ⟨?_, ?_, by norm_num [c7day, DayEntry.dew_point, truthy, Climate.default]⟩
  · simp [Station.day_entry, day_entry_go, day_entry_sunshine, truthy, c7st, c7day]
  · simp [wind_speed_2m, c7stNone, c7st, c7day, truthy]

/-- C7, amended.  Setting the station's climate to absent disables the
climate fallback of `wind_speed_2m` for *all* records (the method reads
the station's current climate), but `dew_point` consults the snapshot
taken at registration: records registered before the change keep
estimating `temp_min` minus the dew-point depression, and only records
whose snapshot is absent resolve the dew point as absent. -/
theorem c7_amended (st : Station) (d : DayEntry) (c : Climate)
    (hst : st.climate = none) (htd : truthy d.temp_dew = false) :
    (truthy d.wind_speed = false → wind_speed_2m st d = none) ∧
    (d.climate = some c → truthy d.temp_min = true →
      d.dew_point = some (d.temp_min.getD 0 - c.dew_point_difference)) ∧
    (d.climate = none → d.dew_point = none) := by
  refine ⟨?_, ?_, ?_⟩
  · intro hw
    simp [wind_speed_2m, hw, hst]
  · intro hc ht
    simp [DayEntry.dew_point, htd, hc, ht]
  · intro hc
    simp [DayEntry.dew_point, htd, hc]

/-- C7, witness: the amended statement applied to station `c7stNone` and
the previously registered day `c7day`. -/
theorem c7_amended_witness :
    wind_speed_2m c7stNone c7day = none ∧
    c7day.dew_point = some ((10 : ℚ) - 2) := by
  have h := c7_amended c7stNone c7day Climate.default rfl rfl
  exact ⟨h.1 rfl, h.2.1 rfl rfl⟩

/-! ## Claim C10: registration by date string and by day number -/

theorem dayOfYear_bounds {y m d : ℤ} (hv : validDate y m d = true) :
    1 ≤ dayOfYear y m d ∧ dayOfYear y m d ≤ 366 := by
  unfold validDate at hv
  simp only [Bool.and_eq_true, decide_eq_true_eq] at hv
  obtain ⟨⟨⟨⟨hy, hm1⟩, hm2⟩, hd1⟩, hd2⟩ := hv
  unfold daysInMonth at hd2
  unfold dayOfYear monthOffset daysInMonth
  cases hL : isLeap y <;> rw [hL] at hd2 <;> interval_cases m <;> simp_all <;> omega

/-- C10.  Registering a day by a (valid) parsed date string and by its
equivalent day-of-year integer are indistinguishable: the resolved day
number lies in 1..366, the two `day_entry` calls return identical
station/result pairs (hence identical registries and identical
`DayRecord`s), and consequently every derived accessor, `eto()` included,
agrees on the two records. -/
theorem c10_date_int_equivalence (checkRad checkSun : Bool) (st : Station) (y m dd : ℤ)
    (tmin tmax tmean ws hmean hmin hmax rs sh : Option ℚ)
    (hv : validDate y m dd = true) :
    1 ≤ dayOfYear y m dd ∧ dayOfYear y m dd ≤ 366 ∧
    Station.day_entry checkRad checkSun st (.date y m dd)
        tmin tmax tmean ws hmean hmin hmax rs sh =
      Station.day_entry checkRad checkSun st (.num (dayOfYear y m dd))
        tmin tmax tmean ws hmean hmin hmax rs sh ∧
    ∀ st1 st2 d1 d2,
      Station.day_entry checkRad checkSun st (.date y m dd)
          tmin tmax tmean ws hmean hmin hmax rs sh = (st1, .ok d1) →
      Station.day_entry checkRad checkSun st (.num (dayOfYear y m dd))
          tmin tmax tmean ws hmean hmin hmax rs sh = (st2, .ok d2) →
      d1.day_number = d2.day_number ∧
      eto checkRad checkSun st1 d1 = eto checkRad checkSun st2 d2 := by
  have hb := dayOfYear_bounds hv
  have heq : Station.day_entry checkRad checkSun st (.date y m dd)
      tmin tmax tmean ws hmean hmin hmax rs sh =
      Station.day_entry checkRad checkSun st (.num (dayOfYear y m dd))
        tmin tmax tmean ws hmean hmin hmax rs sh := by
    simp [Station.day_entry, hv]
  refine ⟨hb.1, hb.2, heq, ?_⟩
  intro st1 st2 d1 d2 h1 h2
  rw [heq, h2] at h1
  obtain ⟨hst, hd⟩ := Prod.mk.injEq .. ▸ h1
  cases hst
  cases hd
  exact ⟨rfl, rfl⟩

/-- C10, witness: the spec's own example, date 2020-08-16 against day of
year 229 (2020 is a leap year, so August 16 is day 229). -/
theorem c10_witness :
    dayOfYear 2020 8 16 = 229 ∧
    Station.day_entry true true c7st (.date 2020 8 16)
        (some 10) (some 20) none none none none none none none =
      Station.day_entry true true c7st (.num 229)
        (some 10) (some 20) none none none none none none none := by
  have h229 : dayOfYear 2020 8 16 = 229 := by decide
  have h := (c10_date_int_equivalence true true c7st 2020 8 16
    (some 10) (some 20) none none none none none none none (by decide)).2.2.1
  rw [h229] at h
  exact ⟨h229, h⟩

/-! ## Interval arithmetic toolkit for the trigonometric values -/

theorem abs_sin_sub_sin (a b : ℝ) : |Real.sin a - Real.sin b| ≤ |a - b| := by
  rw [Real.sin_sub_sin, abs_mul, abs_mul]
  have h1 := Real.abs_sin_le_abs (x := (a - b) / 2)
  have h2 := Real.abs_cos_le_one ((a + b) / 2)
  have h3 : |(2 : ℝ)| = 2 := by norm_num
  rw [h3]
  have h4 : |(a - b) / 2| = |a - b| / 2 := by
    rw [abs_div]
    norm_num
  rw [h4] at h1
  nlinarith [abs_nonneg (Real.sin ((a - b) / 2)), abs_nonneg (Real.cos ((a + b) / 2)),
    abs_nonneg (a - b)]

theorem abs_cos_sub_cos (a b : ℝ) : |Real.cos a - Real.cos b| ≤ |a - b| := by
  rw [Real.cos_sub_cos, abs_mul, abs_mul, abs_neg]
  have h1 := Real.abs_sin_le_abs (x := (a - b) / 2)
  have h2 := Real.abs_sin_le_one ((a + b) / 2)
  have h3 : |(2 : ℝ)| = 2 := by norm_num
  rw [h3]
  have h4 : |(a - b) / 2| = |a - b| / 2 := by
    rw [abs_div]
    norm_num
  rw [h4] at h1
  nlinarith [abs_nonneg (Real.sin ((a - b) / 2)), abs_nonneg (Real.sin ((a + b) / 2)),
    abs_nonneg (a - b)]

theorem sin_taylor {c : ℝ} (h : |c| ≤ 1) :
    c - c ^ 3 / 6 - |c| ^ 4 * (5 / 96) ≤ Real.sin c ∧
    Real.sin c ≤ c - c ^ 3 / 6 + |c| ^ 4 * (5 / 96) := by
  have hb := abs_le.mp (Real.sin_bound h)
  exact ⟨by linarith [hb.1], by linarith [hb.2]⟩

theorem cos_taylor {c : ℝ} (h : |c| ≤ 1) :
    1 - c ^ 2 / 2 - |c| ^ 4 * (5 / 96) ≤ Real.cos c ∧
    Real.cos c ≤ 1 - c ^ 2 / 2 + |c| ^ 4 * (5 / 96) := by
  have hb := abs_le.mp (Real.cos_bound h)
  exact ⟨by linarith [hb.1], by linarith [hb.2]⟩

/-! ## Exact solar values at latitude 0, day of year 1 -/

theorem latitude_rad_zero {st : Station} (h : st.latitude = 0) : st.latitude_rad = 0 := by
  unfold Station.latitude_rad
  rw [h]
  have h1 : Real.pi / 180 * ((0 : ℚ) : ℝ) = 0 := by norm_num
  rw [h1]
  have h0 : ((0 : ℤ) : ℝ) / 10 ^ 3 = 0 := by norm_num
  rw [← h0]
  apply pyround_eq <;> norm_num

theorem sunset_hour_angle_zero_lat {st : Station} (h : st.latitude = 0) (dn : ℤ) :
    sunset_hour_angle st dn = some (1.571 : ℝ) := by
  unfold sunset_hour_angle sunset_hour_angle_arg
  rw [latitude_rad_zero h, Real.tan_zero]
  have hz : (-1 : ℝ) * 0 * Real.tan (solar_declination dn) = 0 := by ring
  rw [hz, if_pos (by norm_num : (-1 : ℝ) ≤ 0 ∧ (0 : ℝ) ≤ 1), Real.arccos_zero]
  congr 1
  have hv : (1.571 : ℝ) = ((1571 : ℤ) : ℝ) / 10 ^ 3 := by norm_num
  rw [hv]
  apply pyround_eq
  · push_cast
    nlinarith [Real.pi_gt_d6]
  · push_cast
    nlinarith [Real.pi_lt_d6]

theorem sin_1571_bounds : (0.999796 : ℝ) ≤ Real.sin 1.571 ∧ Real.sin 1.571 ≤ 1 := by
  refine ⟨?_, Real.sin_le_one _⟩
  have habs := abs_sin_sub_sin 1.571 (Real.pi / 2)
  rw [Real.sin_pi_div_two] at habs
  have hd : |(1.571 : ℝ) - Real.pi / 2| ≤ 0.000204 := by
    rw [abs_le]
    constructor <;> nlinarith [Real.pi_gt_d6, Real.pi_lt_d6]
  have := (abs_le.mp (le_trans habs hd)).1
  linarith

theorem cos_0401_bounds :
    (0.9206 : ℝ) ≤ Real.cos 0.401 ∧ Real.cos 0.401 ≤ 0.92069 := by
  have hhalf : Real.cos (0.401 : ℝ) = 1 - 2 * Real.sin (0.2005 : ℝ) ^ 2 := by
    have h1 := Real.cos_two_mul (0.2005 : ℝ)
    have h2 : (2 : ℝ) * 0.2005 = 0.401 := by norm_num
    rw [h2] at h1
    have h3 := Real.cos_sq' (0.2005 : ℝ)
    linarith
  have hdbl : Real.sin (0.2005 : ℝ) =
      2 * Real.sin (0.10025 : ℝ) * Real.cos (0.10025 : ℝ) := by
    have := Real.sin_two_mul (0.10025 : ℝ)
    have h2 : (2 : ℝ) * 0.10025 = 0.2005 := by norm_num
    rw [h2] at this
    linarith
  have hs1 := sin_taylor (c := (0.10025 : ℝ)) (by rw [abs_le]; constructor <;> norm_num)
  have hc1 := cos_taylor (c := (0.10025 : ℝ)) (by rw [abs_le]; constructor <;> norm_num)
  rw [show |(0.10025 : ℝ)| = 0.10025 by rw [abs_of_pos]; norm_num] at hs1 hc1
  have hslo : (0.100076 : ℝ) ≤ Real.sin 0.10025 := by nlinarith [hs1.1]
  have hshi : Real.sin (0.10025 : ℝ) ≤ 0.100088 := by nlinarith [hs1.2]
  have hclo : (0.994969 : ℝ) ≤ Real.cos 0.10025 := by nlinarith [hc1.1]
  have hchi : Real.cos (0.10025 : ℝ) ≤ 0.994981 := by nlinarith [hc1.2]
  have h2005lo : (0.199135 : ℝ) ≤ Real.sin 0.2005 := by
    rw [hdbl]
    nlinarith
  have h2005hi : Real.sin (0.2005 : ℝ) ≤ 0.199183 := by
    rw [hdbl]
    nlinarith
  constructor
  · rw [hhalf]
    nlinarith
  · rw [hhalf]
    nlinarith

theorem solar_declination_day1 : solar_declination 1 = (-0.401 : ℝ) := by
  unfold solar_declination
  have harg : 2 * Real.pi / 365 * ((1 : ℤ) : ℝ) - 1.39 = 2 * Real.pi / 365 - 1.39 := by
    push_cast
    ring
  rw [harg]
  have hsin : |Real.sin (2 * Real.pi / 365 - 1.39) - Real.sin (-1.3727858 : ℝ)| ≤
      0.0000005 := by
    refine le_trans (abs_sin_sub_sin _ _) ?_
    rw [abs_le]
    constructor <;> nlinarith [Real.pi_gt_d6, Real.pi_lt_d6]
  have href : Real.sin (-1.3727858 : ℝ) = -Real.cos (Real.pi / 2 - 1.3727858) := by
    rw [Real.sin_neg, ← Real.cos_pi_div_two_sub]
  have hcos : |Real.cos (Real.pi / 2 - 1.3727858) - Real.cos (0.1980105 : ℝ)| ≤
      0.0000007 := by
    refine le_trans (abs_cos_sub_cos _ _) ?_
    rw [abs_le]
    constructor <;> nlinarith [Real.pi_gt_d6, Real.pi_lt_d6]
  have hct := cos_taylor (c := (0.1980105 : ℝ)) (by rw [abs_le]; constructor <;> norm_num)
  rw [show |(0.1980105 : ℝ)| = 0.1980105 by rw [abs_of_pos]; norm_num] at hct
  have hclo : (0.980315 : ℝ) ≤ Real.cos 0.1980105 := by nlinarith [hct.1]
  have hchi : Real.cos (0.1980105 : ℝ) ≤ 0.980477 := by nlinarith [hct.2]
  have hrlo : (0.9803143 : ℝ) ≤ Real.cos (Real.pi / 2 - 1.3727858) := by
    have := (abs_le.mp hcos).1
    linarith
  have hrhi : Real.cos (Real.pi / 2 - 1.3727858) ≤ 0.9804777 := by
    have := (abs_le.mp hcos).2
    linarith
  have hslo : (-0.9804782 : ℝ) ≤ Real.sin (2 * Real.pi / 365 - 1.39) := by
    have := (abs_le.mp hsin).1
    rw [href] at this
    linarith
  have hshi : Real.sin (2 * Real.pi / 365 - 1.39) ≤ -0.9803138 := by
    have := (abs_le.mp hsin).2
    rw [href] at this
    linarith
  have hv : (-0.401 : ℝ) = ((-401 : ℤ) : ℝ) / 10 ^ 3 := by norm_num
  rw [hv]
  apply pyround_eq
  · push_cast
    nlinarith
  · push_cast
    nlinarith

theorem relative_sun_distance_day1 : relative_sun_distance 1 = (1.033 : ℝ) := by
  unfold relative_sun_distance
  have harg : 2 * Real.pi / 365 * ((1 : ℤ) : ℝ) = 2 * Real.pi / 365 := by
    push_cast
    ring
  rw [harg]
  have hchi := Real.cos_le_one (2 * Real.pi / 365)
  have hxb : |(2 : ℝ) * Real.pi / 365| ≤ 1 := by
    rw [abs_le]
    constructor <;> nlinarith [Real.pi_gt_d6, Real.pi_lt_d6]
  have hct := cos_taylor hxb
  have hclo : (0.99985 : ℝ) ≤ Real.cos (2 * Real.pi / 365) := by
    have h1 : (2 * Real.pi / 365) ^ 2 ≤ 0.0002964 := by
      nlinarith [Real.pi_gt_d6, Real.pi_lt_d6]
    have h2 : |(2 : ℝ) * Real.pi / 365| ^ 4 ≤ 0.0000001 := by
      have h3 : |(2 : ℝ) * Real.pi / 365| ≤ 0.01722 := by
        rw [abs_le]
        constructor <;> nlinarith [Real.pi_gt_d6, Real.pi_lt_d6]
      calc |(2 : ℝ) * Real.pi / 365| ^ 4 ≤ (0.01722 : ℝ) ^ 4 :=
            pow_le_pow_left₀ (abs_nonneg _) h3 4
        _ ≤ 0.0000001 := by norm_num
    nlinarith [hct.1]
  have hv : (1.033 : ℝ) = ((1033 : ℤ) : ℝ) / 10 ^ 3 := by norm_num
  rw [hv]
  apply pyround_eq
  · push_cast
    nlinarith
  · push_cast
    nlinarith

theorem pi_inv_1440_bounds : (458.35 : ℝ) ≤ 1440 / Real.pi ∧ 1440 / Real.pi ≤ 458.38 := by
  have hp := Real.pi_pos
  constructor
  · rw [le_div_iff₀ hp]
    nlinarith [Real.pi_lt_d6]
  · rw [div_le_iff₀ hp]
    nlinarith [Real.pi_gt_d6]

theorem r_a_zero_lat_day1 {st : Station} (h : st.latitude = 0) :
    r_a st 1 = some (35.7 : ℝ) := by
  unfold r_a
  rw [sunset_hour_angle_zero_lat h]
  simp only [Option.map_some']
  congr 1
  rw [latitude_rad_zero h, Real.sin_zero, Real.cos_zero, solar_declination_day1,
    relative_sun_distance_day1]
  have hrw : 24 * 60 / Real.pi * 0.0820 * (1.033 : ℝ) *
      ((1.571 : ℝ) * 0 * Real.sin (-0.401 : ℝ) +
        1 * Real.cos (-0.401 : ℝ) * Real.sin (1.571 : ℝ)) =
      1440 / Real.pi * (0.0847060 * (Real.cos (0.401 : ℝ) * Real.sin (1.571 : ℝ))) := by
    rw [Real.cos_neg]
    ring
  rw [hrw]
  obtain ⟨hk1, hk2⟩ := pi_inv_1440_bounds
  obtain ⟨hc1, hc2⟩ := cos_0401_bounds
  obtain ⟨hs1, hs2⟩ := sin_1571_bounds
  have hcs1 : (0.92041 : ℝ) ≤ Real.cos (0.401 : ℝ) * Real.sin (1.571 : ℝ) := by nlinarith
  have hcs2 : Real.cos (0.401 : ℝ) * Real.sin (1.571 : ℝ) ≤ 0.92069 := by nlinarith
  have hv : (35.7 : ℝ) = ((357 : ℤ) : ℝ) / 10 ^ 1 := by norm_num
  rw [hv]
  apply pyround_eq
  · push_cast
    nlinarith
  · push_cast
    nlinarith

theorem daylight_hours_zero_lat_day1 {st : Station} (h : st.latitude = 0) :
    daylight_hours st 1 = some (12.0 : ℝ) := by
  unfold daylight_hours
  rw [sunset_hour_angle_zero_lat h]
  simp only [Option.map_some']
  congr 1
  have hrw : 24 / Real.pi * (1.571 : ℝ) = 1440 / Real.pi * (1.571 / 60) := by
    ring
  rw [hrw]
  obtain ⟨hk1, hk2⟩ := pi_inv_1440_bounds
  have hv : (12.0 : ℝ) = ((120 : ℤ) : ℝ) / 10 ^ 1 := by norm_num
  rw [hv]
  apply pyround_eq
  · push_cast
    nlinarith
  · push_cast
    nlinarith

theorem clear_sky_rad_zero_lat_day1 {st : Station} (h : st.latitude = 0)
    (halt : st.altitude = 0) : clear_sky_rad st 1 = some (26.8 : ℝ) := by
  unfold clear_sky_rad
  rw [r_a_zero_lat_day1 h]
  simp only [Option.map_some']
  rw [if_pos (by rw [halt]; norm_num : st.altitude < 100)]
  congr 1
  have hv : (26.8 : ℝ) = ((268 : ℤ) : ℝ) / 10 ^ 1 := by norm_num
  rw [hv]
  apply pyround_eq <;> push_cast <;> norm_num

/-! ## Claim C8: the radiation boundary at registration -/

/-- The record built and inserted by `day_entry_go` before the radiation
and sunshine validations run. -/
def registeredDay (st : Station) (n : ℤ)
    (tmin tmax tmean ws hmean hmin hmax : Option ℚ) : DayEntry :=
  { day_number := n, temp_min := tmin, temp_max := tmax, temp_mean := tmean,
    humidity_min := hmin, humidity_max := hmax, humidity_mean := hmean,
    wind_speed := ws, climate := st.climate }

/-- Generic analysis of the radiation step of `day_entry`: acceptance at
or below the ceiling, rejection above it under the enabled check, and
unconditional acceptance with the check disabled. -/
theorem day_entry_radiation_spec (checkSun : Bool) (st : Station) (n : ℤ)
    (tmin tmax tmean ws hmean hmin hmax : Option ℚ) (r : ℚ) (rso : ℝ)
    (hn1 : 1 ≤ n) (hn2 : n ≤ 366) (hr : 0 < r)
    (hcs : clear_sky_rad st n = some rso) :
    (((r : ℚ) : ℝ) ≤ rso →
      Station.day_entry true checkSun st (.num n) tmin tmax tmean ws hmean hmin hmax
          (some r) none =
        (st.insertDay n
          { registeredDay st n tmin tmax tmean ws hmean hmin hmax with
            radiation_s := some r },
         .ok { registeredDay st n tmin tmax tmean ws hmean hmin hmax with
               radiation_s := some r })) ∧
    (rso < ((r : ℚ) : ℝ) →
      Station.day_entry true checkSun st (.num n) tmin tmax tmean ws hmean hmin hmax
          (some r) none =
        (st.insertDay n (registeredDay st n tmin tmax tmean ws hmean hmin hmax),
         .error .outOfRange)) ∧
    (Station.day_entry false checkSun st (.num n) tmin tmax tmean ws hmean hmin hmax
          (some r) none =
        (st.insertDay n
          { registeredDay st n tmin tmax tmean ws hmean hmin hmax with
            radiation_s := some r },
         .ok { registeredDay st n tmin tmax tmean ws hmean hmin hmax with
               radiation_s := some r })) := by
  have hrange : ¬(n < 1 ∨ 366 < n) := by omega
  have hrne : r ≠ 0 := hr.ne'
  refine ⟨?_, ?_, ?_⟩
  · intro hle
    simp [Station.day_entry, day_entry_go, day_entry_sunshine, hrange, hrne, hcs, hle,
      truthy, registeredDay]
  · intro hlt
    simp [Station.day_entry, day_entry_go, day_entry_sunshine, hrange, hrne, hcs,
      not_le.mpr hlt, truthy, registeredDay]
  · simp [Station.day_entry, day_entry_go, day_entry_sunshine, hrange, hrne,
      truthy, registeredDay]

/-- C8.  With the radiation check enabled, registering a (nonzero)
`radiation_s` no greater than — in particular exactly equal to — that
day's clear-sky radiation succeeds and stores the value on the registered
record; a value strictly above the ceiling raises `OutOfRange`; and with
the check disabled the same above-ceiling value is accepted and stored. -/
theorem c8_radiation_boundary (checkSun : Bool) (st : Station) (n : ℤ)
    (tmin tmax tmean ws hmean hmin hmax : Option ℚ) (r : ℚ) (rso : ℝ)
    (hn1 : 1 ≤ n) (hn2 : n ≤ 366) (hr : 0 < r)
    (hcs : clear_sky_rad st n = some rso) :
    (((r : ℚ) : ℝ) ≤ rso →
      Station.day_entry true checkSun st (.num n) tmin tmax tmean ws hmean hmin hmax
          (some r) none =
        (st.insertDay n
          { registeredDay st n tmin tmax tmean ws hmean hmin hmax with
            radiation_s := some r },
         .ok { registeredDay st n tmin tmax tmean ws hmean hmin hmax with
               radiation_s := some r })) ∧
    (rso < ((r : ℚ) : ℝ) →
      Station.day_entry true checkSun st (.num n) tmin tmax tmean ws hmean hmin hmax
          (some r) none =
        (st.insertDay n (registeredDay st n tmin tmax tmean ws hmean hmin hmax),
         .error .outOfRange)) ∧
    (Station.day_entry false checkSun st (.num n) tmin tmax tmean ws hmean hmin hmax
          (some r) none =
        (st.insertDay n
          { registeredDay st n tmin tmax tmean ws hmean hmin hmax with
            radiation_s := some r },
         .ok { registeredDay st n tmin tmax tmean ws hmean hmin hmax with
               radiation_s := some r })) :=
  day_entry_radiation_spec checkSun st n tmin tmax tmean ws hmean hmin hmax r rso
    hn1 hn2 hr hcs

/-- Station used for the concrete boundary witnesses: equator, sea level,
where `clear_sky_rad` on day 1 is exactly 26.8. -/
def c8st : Station := { latitude := 0, altitude := 0 }

/-- C8, witness: on `c8st`, day 1, the ceiling is exactly 26.8; supplying
26.8 registers and stores it, 26.9 raises `OutOfRange` under the enabled
check and is stored when the check is disabled. -/
theorem c8_witness :
    (Station.day_entry true true c8st (.num 1) none none none none none none none
        (some (26.8 : ℚ)) none).2 =
      .ok { registeredDay c8st 1 none none none none none none none with
            radiation_s := some (26.8 : ℚ) } ∧
    (Station.day_entry true true c8st (.num 1) none none none none none none none
        (some (26.9 : ℚ)) none).2 = .error .outOfRange ∧
    (Station.day_entry false true c8st (.num 1) none none none none none none none
        (some (26.9 : ℚ)) none).2 =
      .ok { registeredDay c8st 1 none none none none none none none with
            radiation_s := some (26.9 : ℚ) } := by
  have hcs : clear_sky_rad c8st 1 = some (26.8 : ℝ) :=
    clear_sky_rad_zero_lat_day1 rfl rfl
  have h1 := c8_radiation_boundary true c8st 1 none none none none none none none
    (26.8 : ℚ) (26.8 : ℝ) (by norm_num) (by norm_num) (by norm_num) hcs
  have h2 := c8_radiation_boundary true c8st 1 none none none none none none none
    (26.9 : ℚ) (26.8 : ℝ) (by norm_num) (by norm_num) (by norm_num) hcs
  refine ⟨?_, ?_, ?_⟩
  · rw [h1.1 (by norm_num)]
  · rw [h2.2.1 (by norm_num)]
  · rw [h2.2.2]

/-! ## Claim C4: order of the solar-radiation alternatives -/

/-- An island-climate station at sea level on the equator. -/
def c4st : Station := { latitude := 0, altitude := 0,
                        climate := some (Climate.island Climate.default) }

/-- Day 1 on `c4st` with `sunshine_hours = 5` supplied (and no supplied
radiation). -/
def c4day : DayEntry := { day_number := 1, sunshine_hours := some 5,
                          climate := c4st.climate }

/-- C4, counterexample.  On an island station below 100 m with supplied
sunshine hours, `solar_radiation` does *not* use the island
simplification `0.7 * Ra - 4` (which with `Ra = 35.7` would give 21.0):
it uses the Angstrom formula and returns 16.4. -/
theorem c4_counterexample :
    r_a c4st 1 = some (35.7 : ℝ) ∧
    solar_radiation true true c4st c4day = .ok (16.4 : ℝ) ∧
    pyround 1 (0.7 * (35.7 : ℝ) - 4) = (21.0 : ℝ) ∧
    (16.4 : ℝ) ≠ 21.0 := by
  have hra : r_a c4st 1 = some (35.7 : ℝ) := r_a_zero_lat_day1 rfl
  have hdl : daylight_hours c4st 1 = some (12.0 : ℝ) := daylight_hours_zero_lat_day1 rfl
  refine ⟨hra, ?_, ?_, by norm_num⟩
  · simp only [solar_radiation, c4day, truthy, decide_eq_true_eq, Bool.false_eq_true,
      if_false, angstrom_path, hdl, hra]
    rw [if_neg (show ¬(((5 : ℚ) : ℝ) < 0) by push_cast; norm_num)]
    rw [if_neg (show ¬((12.0 : ℝ) < ((5 : ℚ) : ℝ) ∧ True) by push_cast; norm_num)]
    congr 1
    have hval : (0.25 + 0.50 * (((5 : ℚ) : ℝ)) / (12.0 : ℝ)) * (35.7 : ℝ) = 16.3625 := by
      norm_num
    rw [hval]
    have hv : (16.4 : ℝ) = ((164 : ℤ) : ℝ) / 10 ^ 1 := by norm_num
    rw [hv]
    apply pyround_eq <;> push_cast <;> norm_num
  · have hv : (21.0 : ℝ) = ((210 : ℤ) : ℝ) / 10 ^ 1 := by norm_num
    rw [hv]
    apply pyround_eq <;> push_cast <;> norm_num

/-- C4, amended.  When no radiation is supplied the alternatives are
resolved in the claimed order *only when `sunshine_hours` is absent*:
island simplification first (island climate, altitude below 100 m), then
Hargreaves-Samani on truthy temperatures, then the Angstrom formula with
`n = N`; but a supplied `sunshine_hours` bypasses them all and goes
directly to the Angstrom formula, island climate or not. -/
theorem c4_amended (checkRad checkSun : Bool) (st : Station) (d : DayEntry) (c : Climate)
    (ra N : ℝ) (hrad : truthy d.radiation_s = false) (hc : st.climate = some c) :
    (d.sunshine_hours = none → c.island_location = true → st.altitude < 100 →
      r_a st d.day_number = some ra →
      solar_radiation checkRad checkSun st d = .ok (pyround 1 (0.7 * ra - 4))) ∧
    (d.sunshine_hours = none → ¬(c.island_location = true ∧ st.altitude < 100) →
      truthy d.temp_min = true → truthy d.temp_max = true →
      r_a st d.day_number = some ra →
      solar_radiation checkRad checkSun st d =
        .ok (pyround 1 ((if c.coastal_location = true then (0.19 : ℝ) else 0.16) *
          Real.sqrt (((d.temp_max.getD 0 : ℚ) : ℝ) - ((d.temp_min.getD 0 : ℚ) : ℝ)) * ra))) ∧
    (d.sunshine_hours = none → ¬(c.island_location = true ∧ st.altitude < 100) →
      ¬(truthy d.temp_min = true ∧ truthy d.temp_max = true) →
      daylight_hours st d.day_number = some N →
      solar_radiation checkRad checkSun st d = angstrom_path checkSun st d.day_number N) ∧
    (∀ s : ℚ, d.sunshine_hours = some s →
      solar_radiation checkRad checkSun st d =
        angstrom_path checkSun st d.day_number ((s : ℚ) : ℝ)) := by
  refine ⟨?_, ?_, ?_, ?_⟩
  · intro hsun hisl halt hra
    simp only [solar_radiation, hrad, Bool.false_eq_true, if_false, hsun, hc]
    rw [if_pos (show c.island_location = true ∧ st.altitude < 100 from ⟨hisl, halt⟩), hra]
  · intro hsun hni ht1 ht2 hra
    simp only [solar_radiation, hrad, Bool.false_eq_true, if_false, hsun, hc]
    rw [if_neg hni, if_pos (show (truthy d.temp_min && truthy d.temp_max) = true by
      simp [ht1, ht2]), hra]
    simp only [ite_self]
  · intro hsun hni hnt hdl
    have hnt' : ¬(truthy d.temp_min && truthy d.temp_max) = true := by
      simp only [Bool.and_eq_true]
      exact hnt
    simp only [solar_radiation, hrad, Bool.false_eq_true, if_false, hsun, hc]
    rw [if_neg hni, if_neg hnt', hdl]
  · intro s hsun
    simp only [solar_radiation, hrad, Bool.false_eq_true, if_false, hsun]

/-- C4, witness: the amended statement applied to the island station
`c4st` and the day `c4day` whose sunshine hours are supplied. -/
theorem c4_witness :
    solar_radiation true true c4st c4day =
      angstrom_path true c4st c4day.day_number ((5 : ℚ) : ℝ) :=
  (c4_amended true true c4st c4day (Climate.island Climate.default) 0 0 rfl rfl).2.2.2
    5 rfl

/-! ## Claim C5: the krs coefficient of the Hargreaves-Samani branch -/

/-- An island-climate station on the equator at 200 m, so that the
Hargreaves-Samani branch (not the island simplification) is taken. -/
def c5st : Station := { latitude := 0, altitude := 200,
                        climate := some (Climate.island Climate.default) }

/-- Day 1 on `c5st` with min/max temperatures 5 and 30 degrees. -/
def c5day : DayEntry := { day_number := 1, temp_min := some 5, temp_max := some 30,
                          climate := c5st.climate }

/-- C5, counterexample.  For an island location the climate's `k_rs`
attribute is 0.19, but the Hargreaves-Samani branch of `solar_radiation`
ignores it: its local `krs` is 0.19 only for a coastal location and 0.16
otherwise, so the island station gets 0.16.  With `Ra = 35.7` and a
temperature range of 25 the code returns 28.6, not the 33.9 that
`krs = 0.19` would give. -/
theorem c5_counterexample :
    (Climate.island Climate.default).k_rs = 19 / 100 ∧
    r_a c5st 1 = some (35.7 : ℝ) ∧
    solar_radiation true true c5st c5day = .ok (28.6 : ℝ) ∧
    pyround 1 (0.19 * Real.sqrt ((30 : ℝ) - 5) * 35.7) = (33.9 : ℝ) ∧
    (28.6 : ℝ) ≠ 33.9 := by
  have hra : r_a c5st 1 = some (35.7 : ℝ) := r_a_zero_lat_day1 rfl
  have hsq : Real.sqrt ((30 : ℝ) - 5) = 5 := by
    rw [show (30 : ℝ) - 5 = 5 ^ 2 by norm_num, Real.sqrt_sq (by norm_num)]
  have hcl : c5st.climate = some (Climate.island Climate.default) := rfl
  refine ⟨by norm_num [Climate.island, Climate.default], hra, ?_, ?_⟩
  · simp only [solar_radiation, c5day, show truthy none = false from rfl,
      Bool.false_eq_true, if_false, hcl, Option.getD_some]
    rw [if_neg (show ¬((Climate.island Climate.default).island_location = true ∧
        c5st.altitude < 100) by
      norm_num [Climate.island, Climate.default, c5st])]
    rw [if_pos (show (truthy (some (5 : ℚ)) && truthy (some (30 : ℚ))) = true by
      norm_num [truthy])]
    rw [hra]
    simp only [Climate.island, Climate.default, Bool.false_eq_true, if_false,
      ite_self, Option.getD_some]
    congr 1
    rw [show (((30 : ℚ) : ℝ)) - ((5 : ℚ) : ℝ) = (30 : ℝ) - 5 by push_cast; ring, hsq]
    have hv : (28.6 : ℝ) = ((286 : ℤ) : ℝ) / 10 ^ 1 := by norm_num
    rw [hv]
    apply pyround_eq <;> push_cast <;> norm_num
  · refine ⟨?_, by norm_num⟩
    rw [hsq]
    have hv : (33.9 : ℝ) = ((339 : ℤ) : ℝ) / 10 ^ 1 := by norm_num
    rw [hv]
    apply pyround_eq <;> push_cast <;> norm_num

/-- C5, amended.  Whenever the Hargreaves-Samani branch is taken, the
radiation coefficient it uses is 0.19 for a coastal location and 0.16 for
every other terrain setting — interior *and* island alike (the branch is
reachable for an island climate at any altitude of at least 100 m). -/
theorem c5_amended (checkRad checkSun : Bool) (st : Station) (d : DayEntry) (c : Climate)
    (ra : ℝ) (hrad : truthy d.radiation_s = false) (hsun : d.sunshine_hours = none)
    (hc : st.climate = some c) (hni : ¬(c.island_location = true ∧ st.altitude < 100))
    (ht1 : truthy d.temp_min = true) (ht2 : truthy d.temp_max = true)
    (hra : r_a st d.day_number = some ra) :
    solar_radiation checkRad checkSun st d =
      .ok (pyround 1 ((if c.coastal_location = true then (0.19 : ℝ) else 0.16) *
        Real.sqrt (((d.temp_max.getD 0 : ℚ) : ℝ) - ((d.temp_min.getD 0 : ℚ) : ℝ)) * ra)) := by
  simp only [solar_radiation, hrad, Bool.false_eq_true, if_false, hsun, hc]
  rw [if_neg hni, if_pos (show (truthy d.temp_min && truthy d.temp_max) = true by
    simp [ht1, ht2]), hra]
  simp only [ite_self]

/-- C5, witness: the amended statement applied to the island station
`c5st`, giving coefficient 0.16. -/
theorem c5_amended_witness :
    solar_radiation true true c5st c5day =
      .ok (pyround 1 ((if (Climate.island Climate.default).coastal_location = true
          then (0.19 : ℝ) else 0.16) *
        Real.sqrt (((c5day.temp_max.getD 0 : ℚ) : ℝ) - ((c5day.temp_min.getD 0 : ℚ) : ℝ)) *
        (35.7 : ℝ))) :=
  c5_amended true true c5st c5day (Climate.island Climate.default) (35.7 : ℝ)
    rfl rfl rfl (by norm_num [c5st]) rfl rfl (r_a_zero_lat_day1 rfl)

/-! ## Claim C3: failed registrations and the day registry -/

/-- The station (empty registry) used for the registration failure
analysis. -/
def c3st : Station := { latitude := 0, altitude := 0 }

/-- C3, counterexample.  Registering day 1 with `radiation_s = 100`
(above the 26.8 ceiling, radiation check enabled) raises `OutOfRange` —
but the registry is *not* left unchanged: the freshly created record,
holding every other supplied field and an absent `radiation_s`, has
already been inserted under day 1, where the registry previously held
nothing. -/
theorem c3_counterexample :
    (Station.day_entry true true c3st (.num 1) (some 10) (some 20) none none none none
        none (some 100) none).2 = .error .outOfRange ∧
    (Station.day_entry true true c3st (.num 1) (some 10) (some 20) none none none none
        none (some 100) none).1.days 1 =
      some (registeredDay c3st 1 (some 10) (some 20) none none none none none) ∧
    (registeredDay c3st 1 (some 10) (some 20) none none none none none).radiation_s
      = none ∧
    c3st.days 1 = none := by
  have hcs : clear_sky_rad c3st 1 = some (26.8 : ℝ) :=
    clear_sky_rad_zero_lat_day1 rfl rfl
  have h := day_entry_radiation_spec true c3st 1 (some 10) (some 20) none none none none
    none (100 : ℚ) (26.8 : ℝ) (by norm_num) (by norm_num) (by norm_num) hcs
  have h2 := h.2.1 (by norm_num)
  rw [h2]
  refine ⟨rfl, ?_, rfl, rfl⟩
  simp [Station.insertDay]

theorem day_entry_sunshine_not_invalid (checkSun : Bool) (st : Station) (n : ℤ)
    (d : DayEntry) (sh : Option ℚ) :
    (day_entry_sunshine checkSun st n d sh).2 ≠ .error .invalidArgument := by
  unfold day_entry_sunshine
  split
  · split
    · split <;> [simp; skip]
      split <;> simp
    · simp
  · simp

/-- Generic analysis of a failing sunshine-hours validation when no
radiation was supplied: the new record is already in the registry, its
`sunshine_hours` (and `radiation_s`) left absent, when `OutOfRange` is
raised. -/
theorem day_entry_sunshine_overflow_spec (checkRad : Bool) (st : Station) (n : ℤ)
    (tmin tmax tmean ws hmean hmin hmax rs : Option ℚ) (s : ℚ) (N : ℝ)
    (hn1 : 1 ≤ n) (hn2 : n ≤ 366) (hrs : truthy rs = false) (hs : 0 < s)
    (hdl : daylight_hours st n = some N) (hlt : N < ((s : ℚ) : ℝ)) :
    Station.day_entry checkRad true st (.num n) tmin tmax tmean ws hmean hmin hmax
        rs (some s) =
      (st.insertDay n (registeredDay st n tmin tmax tmean ws hmean hmin hmax),
       .error .outOfRange) := by
  have hrange : ¬(n < 1 ∨ 366 < n) := by omega
  have hts : truthy (some s) = true := by
    simp [truthy]
    exact hs.ne'
  simp [Station.day_entry, day_entry_go, day_entry_sunshine, hrange, hrs, hts,
    hdl, not_le.mpr hlt, registeredDay]

/-- Generic analysis of a failing sunshine-hours validation after a
radiation value was supplied and accepted: the new record is already in
the registry with the radiation stored and `sunshine_hours` absent when
`OutOfRange` is raised. -/
theorem day_entry_sunshine_overflow_rad_spec (st : Station) (n : ℤ)
    (tmin tmax tmean ws hmean hmin hmax : Option ℚ) (r s : ℚ) (rso N : ℝ)
    (hn1 : 1 ≤ n) (hn2 : n ≤ 366) (hr : 0 < r) (hcs : clear_sky_rad st n = some rso)
    (hle : ((r : ℚ) : ℝ) ≤ rso) (hs : 0 < s)
    (hdl : daylight_hours st n = some N) (hlt : N < ((s : ℚ) : ℝ)) :
    Station.day_entry true true st (.num n) tmin tmax tmean ws hmean hmin hmax
        (some r) (some s) =
      (st.insertDay n { registeredDay st n tmin tmax tmean ws hmean hmin hmax with
          radiation_s := some r },
       .error .outOfRange) := by
  have hrange : ¬(n < 1 ∨ 366 < n) := by omega
  have htr : truthy (some r) = true := by
    simp [truthy]
    exact hr.ne'
  have hts : truthy (some s) = true := by
    simp [truthy]
    exact hs.ne'
  simp [Station.day_entry, day_entry_go, day_entry_sunshine, hrange, htr, hcs, hle,
    hts, hdl, not_le.mpr hlt, registeredDay]

/-- C3, amended.  An `InvalidArgument` failure of `day_entry` — out of
range or unparseable day — happens before the day record is created and
leaves the whole station, its registry included, unchanged; but an
`OutOfRange` failure happens after the new record has been inserted, for
the radiation validation and for the sunshine-hours validation alike: the
registry ends up holding the new record with every accepted field set and
the rejected field (`radiation_s`, respectively `sunshine_hours`) left
absent — including the case where a valid radiation value was stored and
only the sunshine hours were rejected. -/
theorem c3_amended (checkRad checkSun : Bool) (st : Station) (input : DayInput)
    (tmin tmax tmean ws hmean hmin hmax rs sh : Option ℚ) (n : ℤ) (r s : ℚ)
    (rso N : ℝ) :
    ((Station.day_entry checkRad checkSun st input
        tmin tmax tmean ws hmean hmin hmax rs sh).2 = .error .invalidArgument →
      (Station.day_entry checkRad checkSun st input
        tmin tmax tmean ws hmean hmin hmax rs sh).1 = st) ∧
    (1 ≤ n → n ≤ 366 → 0 < r → clear_sky_rad st n = some rso → rso < ((r : ℚ) : ℝ) →
      Station.day_entry true checkSun st (.num n) tmin tmax tmean ws hmean hmin hmax
          (some r) none =
        (st.insertDay n (registeredDay st n tmin tmax tmean ws hmean hmin hmax),
         .error .outOfRange)) ∧
    (1 ≤ n → n ≤ 366 → truthy rs = false → 0 < s → daylight_hours st n = some N →
      N < ((s : ℚ) : ℝ) →
      Station.day_entry checkRad true st (.num n) tmin tmax tmean ws hmean hmin hmax
          rs (some s) =
        (st.insertDay n (registeredDay st n tmin tmax tmean ws hmean hmin hmax),
         .error .outOfRange)) ∧
    (1 ≤ n → n ≤ 366 → 0 < r → clear_sky_rad st n = some rso → ((r : ℚ) : ℝ) ≤ rso →
      0 < s → daylight_hours st n = some N → N < ((s : ℚ) : ℝ) →
      Station.day_entry true true st (.num n) tmin tmax tmean ws hmean hmin hmax
          (some r) (some s) =
        (st.insertDay n { registeredDay st n tmin tmax tmean ws hmean hmin hmax with
            radiation_s := some r },
         .error .outOfRange)) := by
  refine ⟨?_, ?_, ?_, ?_⟩
  · intro herr
    have hgo : ∀ m : ℤ, (day_entry_go checkRad checkSun st m
        tmin tmax tmean ws hmean hmin hmax rs sh).2 = .error .invalidArgument →
        (day_entry_go checkRad checkSun st m
          tmin tmax tmean ws hmean hmin hmax rs sh).1 = st := by
      intro m herr2
      by_cases hm : m < 1 ∨ 366 < m
      · simp [day_entry_go, hm]
      · exfalso
        simp only [day_entry_go, hm, if_false] at herr2
        by_cases hrs : truthy rs = true
        · simp only [hrs, if_true] at herr2
          by_cases hck : checkRad = true
          · simp only [hck, if_true] at herr2
            rcases hcsm : clear_sky_rad st m with _ | rso2
            · rw [hcsm] at herr2
              simp at herr2
            · simp only [hcsm] at herr2
              by_cases hle : ((rs.getD 0 : ℚ) : ℝ) ≤ rso2
              · rw [if_pos hle] at herr2
                exact day_entry_sunshine_not_invalid checkSun st m _ sh herr2
              · rw [if_neg hle] at herr2
                simp at herr2
          · simp only [hck, if_false] at herr2
            exact day_entry_sunshine_not_invalid checkSun st m _ sh herr2
        · simp only [hrs, if_false] at herr2
          exact day_entry_sunshine_not_invalid checkSun st m _ sh herr2
    cases input with
    | badFormat => rfl
    | num m => exact hgo m herr
    | date y mo dd =>
      by_cases hv : validDate y mo dd = true
      · simp only [Station.day_entry, hv, if_true] at herr ⊢
        exact hgo (dayOfYear y mo dd) herr
      · simp [Station.day_entry, hv]
  · intro hn1 hn2 hr hcs hlt
    exact (day_entry_radiation_spec checkSun st n tmin tmax tmean ws hmean hmin hmax
      r rso hn1 hn2 hr hcs).2.1 hlt
  · intro hn1 hn2 hrs hs hdl hlt
    exact day_entry_sunshine_overflow_spec checkRad st n tmin tmax tmean ws hmean
      hmin hmax rs s N hn1 hn2 hrs hs hdl hlt
  · intro hn1 hn2 hr hcs hle hs hdl hlt
    exact day_entry_sunshine_overflow_rad_spec st n tmin tmax tmean ws hmean hmin hmax
      r s rso N hn1 hn2 hr hcs hle hs hdl hlt

/-- C3, witness: with an out-of-range day number the registry of `c3st`
is untouched; the radiation failure of the counterexample's inputs leaves
day 1 registered with its radiation absent; sunshine hours of 13 (above
the 12.0 daylight ceiling) leave day 1 registered with its sunshine
absent, both without and with a stored valid radiation of 26.8. -/
theorem c3_amended_witness :
    (Station.day_entry true true c3st (.num 0)
        none none none none none none none none none).1 = c3st ∧
    Station.day_entry true true c3st (.num 1) (some 10) (some 20) none none none none
        none (some 100) none =
      (c3st.insertDay 1 (registeredDay c3st 1 (some 10) (some 20) none none none none
        none), .error .outOfRange) ∧
    Station.day_entry true true c3st (.num 1) (some 10) (some 20) none none none none
        none none (some 13) =
      (c3st.insertDay 1 (registeredDay c3st 1 (some 10) (some 20) none none none none
        none), .error .outOfRange) ∧
    Station.day_entry true true c3st (.num 1) (some 10) (some 20) none none none none
        none (some (26.8 : ℚ)) (some 13) =
      (c3st.insertDay 1 { registeredDay c3st 1 (some 10) (some 20) none none none none
          none with radiation_s := some (26.8 : ℚ) },
       .error .outOfRange) := by
  refine ⟨?_, ?_, ?_, ?_⟩
  · exact (c3_amended true true c3st (.num 0)
      none none none none none none none none none 1 1 1 0 0).1
      (by simp [Station.day_entry, day_entry_go])
  · exact (c3_amended true true c3st (.num 1)
      (some 10) (some 20) none none none none none (some 100) none 1 100 1
      (26.8 : ℝ) (12.0 : ℝ)).2.1
      (by norm_num) (by norm_num) (by norm_num)
      (clear_sky_rad_zero_lat_day1 rfl rfl) (by norm_num)
  · exact (c3_amended true true c3st (.num 1)
      (some 10) (some 20) none none none none none none (some 13) 1 1 13
      (26.8 : ℝ) (12.0 : ℝ)).2.2.1
      (by norm_num) (by norm_num) rfl (by norm_num)
      (daylight_hours_zero_lat_day1 rfl) (by norm_num)
  · exact (c3_amended true true c3st (.num 1)
      (some 10) (some 20) none none none none none (some (26.8 : ℚ)) (some 13) 1
      (26.8 : ℚ) 13 (26.8 : ℝ) (12.0 : ℝ)).2.2.2
      (by norm_num) (by norm_num) (by norm_num)
      (clear_sky_rad_zero_lat_day1 rfl rfl) (by norm_num) (by norm_num)
      (daylight_hours_zero_lat_day1 rfl) (by norm_num)

/-! ## Claim C2: totality of the solar geometry -/

/-- A station on the north pole, the extreme of the latitude range the
constructor accepts. -/
def c2st : Station := { latitude := 90, altitude := 0 }

theorem latitude_rad_c2st : c2st.latitude_rad = (1.571 : ℝ) := by
  unfold Station.latitude_rad
  have h90 : Real.pi / 180 * ((c2st.latitude : ℚ) : ℝ) = Real.pi / 2 := by
    show Real.pi / 180 * ((90 : ℚ) : ℝ) = Real.pi / 2
    push_cast
    ring
  rw [h90]
  have hv : (1.571 : ℝ) = ((1571 : ℤ) : ℝ) / 10 ^ 3 := by norm_num
  rw [hv]
  apply pyround_eq
  · push_cast
    nlinarith [Real.pi_gt_d6]
  · push_cast
    nlinarith [Real.pi_lt_d6]

theorem cos_1571_bounds :
    (-0.0002041 : ℝ) ≤ Real.cos 1.571 ∧ Real.cos (1.571 : ℝ) ≤ -0.0002034 := by
  have hid : Real.cos (1.571 : ℝ) = Real.sin (Real.pi / 2 - 1.571) :=
    (Real.sin_pi_div_two_sub 1.571).symm
  rw [hid]
  have hlip := abs_sin_sub_sin (Real.pi / 2 - 1.571) (-0.00020375 : ℝ)
  have hd : |Real.pi / 2 - 1.571 - (-0.00020375 : ℝ)| ≤ 0.00000026 := by
    rw [abs_le]
    constructor <;> nlinarith [Real.pi_gt_d6, Real.pi_lt_d6]
  have hst := sin_taylor (c := (-0.00020375 : ℝ)) (by rw [abs_le]; constructor <;> norm_num)
  rw [show |(-0.00020375 : ℝ)| = 0.00020375 by
    rw [abs_of_neg (by norm_num : (-0.00020375 : ℝ) < 0)]; norm_num] at hst
  have h1 : Real.sin (-0.00020375 : ℝ) ≤ -0.0002037 := by nlinarith [hst.2]
  have h2 : (-0.0002038 : ℝ) ≤ Real.sin (-0.00020375 : ℝ) := by nlinarith [hst.1]
  have hab := abs_le.mp (hlip.trans hd)
  exact ⟨by linarith [hab.1], by linarith [hab.2]⟩

theorem tan_1571_ub : Real.tan (1.571 : ℝ) ≤ -4898 := by
  obtain ⟨hc1, hc2⟩ := cos_1571_bounds
  obtain ⟨hs1, hs2⟩ := sin_1571_bounds
  have hcne : Real.cos (1.571 : ℝ) ≠ 0 := by
    intro h
    rw [h] at hc2
    norm_num at hc2
  have htc : Real.tan 1.571 * Real.cos 1.571 = Real.sin 1.571 := by
    rw [Real.tan_eq_sin_div_cos]
    field_simp
  by_contra hcon
  push_neg at hcon
  nlinarith [htc, mul_pos (show (0 : ℝ) < Real.tan 1.571 + 4898 by linarith)
    (show (0 : ℝ) < -Real.cos 1.571 by linarith)]

theorem solar_declination_day172 : solar_declination 172 = (0.409 : ℝ) := by
  unfold solar_declination
  have harg : 2 * Real.pi / 365 * ((172 : ℤ) : ℝ) - 1.39 = 344 * Real.pi / 365 - 1.39 := by
    push_cast
    ring
  rw [harg]
  have hlip := abs_sin_sub_sin (344 * Real.pi / 365 - 1.39) (Real.pi / 2)
  rw [Real.sin_pi_div_two] at hlip
  have hd : |344 * Real.pi / 365 - 1.39 - Real.pi / 2| ≤ 0.0000475 := by
    rw [abs_le]
    constructor <;> nlinarith [Real.pi_gt_d6, Real.pi_lt_d6]
  have hab := abs_le.mp (hlip.trans hd)
  have hlo : (0.99995 : ℝ) ≤ Real.sin (344 * Real.pi / 365 - 1.39) := by linarith [hab.1]
  have hhi := Real.sin_le_one (344 * Real.pi / 365 - 1.39)
  have hv : (0.409 : ℝ) = ((409 : ℤ) : ℝ) / 10 ^ 3 := by norm_num
  rw [hv]
  apply pyround_eq
  · push_cast
    nlinarith
  · push_cast
    nlinarith

theorem tan_0409_lb : (0.396 : ℝ) ≤ Real.tan 0.409 := by
  have hst := sin_taylor (c := (0.409 : ℝ)) (by rw [abs_le]; constructor <;> norm_num)
  rw [show |(0.409 : ℝ)| = 0.409 by rw [abs_of_pos (by norm_num : (0 : ℝ) < 0.409)]] at hst
  have hsin : (0.396 : ℝ) ≤ Real.sin 0.409 := by nlinarith [hst.1]
  have hcpos : 0 < Real.cos (0.409 : ℝ) :=
    Real.cos_pos_of_le_one (by rw [abs_le]; constructor <;> norm_num)
  have hcle := Real.cos_le_one (0.409 : ℝ)
  rw [Real.tan_eq_sin_div_cos, le_div_iff₀ hcpos]
  nlinarith

/-- C2, counterexample.  The station latitude 90.0 is accepted by the
constructor (it lies in [-90, 90]), yet on day 172 the argument of
`math.acos` inside `sunset_hour_angle` exceeds 1, so the error branch is
reached: `sunset_hour_angle` fails, and `r_a`, `daylight_hours` and
`clear_sky_rad` all fail with it. -/
theorem c2_counterexample :
    (-90 : ℚ) ≤ c2st.latitude ∧ c2st.latitude ≤ 90 ∧
    sunset_hour_angle c2st 172 = none ∧ r_a c2st 172 = none ∧
    daylight_hours c2st 172 = none ∧ clear_sky_rad c2st 172 = none := by
  have hgt : 1 < sunset_hour_angle_arg c2st 172 := by
    unfold sunset_hour_angle_arg
    rw [latitude_rad_c2st, solar_declination_day172]
    nlinarith [tan_1571_ub, tan_0409_lb]
  have hnone : sunset_hour_angle c2st 172 = none := by
    unfold sunset_hour_angle
    rw [if_neg (show ¬((-1 : ℝ) ≤ sunset_hour_angle_arg c2st 172 ∧
        sunset_hour_angle_arg c2st 172 ≤ 1) from fun h => absurd h.2 (not_le.mpr hgt))]
  refine ⟨by norm_num [c2st], by norm_num [c2st], hnone, ?_, ?_, ?_⟩
  · simp [r_a, hnone]
  · simp [daylight_hours, hnone]
  · simp [clear_sky_rad, r_a, hnone]

theorem cos_10477_lb : (0.4953 : ℝ) ≤ Real.cos 1.0477 := by
  have hid : Real.cos (1.0477 : ℝ) = Real.sin (Real.pi / 2 - 1.0477) :=
    (Real.sin_pi_div_two_sub 1.0477).symm
  rw [hid]
  have hlip := abs_sin_sub_sin (Real.pi / 2 - 1.0477) (0.523096 : ℝ)
  have hd : |Real.pi / 2 - 1.0477 - (0.523096 : ℝ)| ≤ 0.0000005 := by
    rw [abs_le]
    constructor <;> nlinarith [Real.pi_gt_d6, Real.pi_lt_d6]
  have hst := sin_taylor (c := (0.523096 : ℝ)) (by rw [abs_le]; constructor <;> norm_num)
  rw [show |(0.523096 : ℝ)| = 0.523096 by
    rw [abs_of_pos (by norm_num : (0 : ℝ) < 0.523096)]] at hst
  have h1 : (0.495338 : ℝ) ≤ Real.sin 0.523096 := by nlinarith [hst.1]
  have hab := abs_le.mp (hlip.trans hd)
  linarith [hab.1]

theorem cos_04095_lb : (0.9146 : ℝ) ≤ Real.cos 0.4095 := by
  have hct := cos_taylor (c := (0.4095 : ℝ)) (by rw [abs_le]; constructor <;> norm_num)
  rw [show |(0.4095 : ℝ)| = 0.4095 by
    rw [abs_of_pos (by norm_num : (0 : ℝ) < 0.4095)]] at hct
  nlinarith [hct.1]

theorem abs_tan_le_div {y B cB : ℝ} (hy : |y| ≤ B) (hBpi : B ≤ Real.pi)
    (hcB : cB ≤ Real.cos B) (hcBpos : 0 < cB) : |Real.tan y| ≤ B / cB := by
  have hcos : cB ≤ Real.cos y := by
    refine le_trans hcB ?_
    rw [← Real.cos_abs y]
    exact Real.cos_le_cos_of_nonneg_of_le_pi (abs_nonneg y) hBpi hy
  have hcosy : 0 < Real.cos y := lt_of_lt_of_le hcBpos hcos
  rw [Real.tan_eq_sin_div_cos, abs_div, abs_of_pos hcosy]
  have hsin : |Real.sin y| ≤ B := le_trans (Real.abs_sin_le_abs (x := y)) hy
  exact div_le_div₀ (le_trans (abs_nonneg y) hy) hsin hcBpos hcos

/-- C2, amended.  The solar-geometry primitives are total for every day
number and every station latitude in [-60, 60] (in particular the `acos`
argument stays within [-1, 1]); at extreme latitudes, as the
counterexample's pole shows, the error branch is reachable. -/
theorem c2_amended (st : Station) (dn : ℤ)
    (hlat1 : -60 ≤ st.latitude) (hlat2 : st.latitude ≤ 60) (halt : 0 ≤ st.altitude) :
    (sunset_hour_angle st dn).isSome = true ∧ (r_a st dn).isSome = true ∧
    (daylight_hours st dn).isSome = true ∧ (clear_sky_rad st dn).isSome = true := by
  have hlr : |st.latitude_rad| ≤ 1.0477 := by
    have hq1 : ((-60 : ℚ) : ℝ) ≤ ((st.latitude : ℚ) : ℝ) := by exact_mod_cast hlat1
    have hq2 : ((st.latitude : ℚ) : ℝ) ≤ ((60 : ℚ) : ℝ) := by exact_mod_cast hlat2
    have hx : |Real.pi / 180 * ((st.latitude : ℚ) : ℝ)| ≤ 1.0472 := by
      rw [abs_mul]
      have h1 : |((st.latitude : ℚ) : ℝ)| ≤ 60 := by
        rw [abs_le]
        constructor
        · push_cast at hq1 ⊢
          linarith
        · push_cast at hq2 ⊢
          linarith
      have h2 : |Real.pi / 180| ≤ 3.141593 / 180 := by
        rw [abs_of_pos (by positivity)]
        nlinarith [Real.pi_lt_d6]
      nlinarith [abs_nonneg ((st.latitude : ℚ) : ℝ), abs_nonneg (Real.pi / 180),
        Real.pi_gt_d6]
    unfold Station.latitude_rad
    have hup := pyround_le_add 3 (Real.pi / 180 * ((st.latitude : ℚ) : ℝ))
    have hlow := sub_lt_pyround 3 (Real.pi / 180 * ((st.latitude : ℚ) : ℝ))
    have hx2 := abs_le.mp hx
    rw [abs_le]
    constructor <;> [nlinarith [hx2.1, hlow]; nlinarith [hx2.2, hup]]
  have hdecl : |solar_declination dn| ≤ 0.4095 := by
    have hs : |(0.409 : ℝ) * Real.sin (2 * Real.pi / 365 * ((dn : ℤ) : ℝ) - 1.39)| ≤
        0.409 := by
      rw [abs_mul, show |(0.409 : ℝ)| = 0.409 by
        rw [abs_of_pos (by norm_num : (0 : ℝ) < 0.409)]]
      nlinarith [Real.abs_sin_le_one (2 * Real.pi / 365 * ((dn : ℤ) : ℝ) - 1.39),
        abs_nonneg (Real.sin (2 * Real.pi / 365 * ((dn : ℤ) : ℝ) - 1.39))]
    unfold solar_declination
    have hup := pyround_le_add 3 ((0.409 : ℝ) *
      Real.sin (2 * Real.pi / 365 * ((dn : ℤ) : ℝ) - 1.39))
    have hlow := sub_lt_pyround 3 ((0.409 : ℝ) *
      Real.sin (2 * Real.pi / 365 * ((dn : ℤ) : ℝ) - 1.39))
    have hs2 := abs_le.mp hs
    rw [abs_le]
    constructor <;> [nlinarith [hs2.1, hlow]; nlinarith [hs2.2, hup]]
  have htL : |Real.tan st.latitude_rad| ≤ 1.0477 / 0.4953 :=
    abs_tan_le_div hlr (by nlinarith [Real.pi_gt_d6]) cos_10477_lb (by norm_num)
  have htD : |Real.tan (solar_declination dn)| ≤ 0.4095 / 0.9146 :=
    abs_tan_le_div hdecl (by nlinarith [Real.pi_gt_d6]) cos_04095_lb (by norm_num)
  have harg : -1 ≤ sunset_hour_angle_arg st dn ∧ sunset_hour_angle_arg st dn ≤ 1 := by
    have habs : |sunset_hour_angle_arg st dn| ≤ 1 := by
      unfold sunset_hour_angle_arg
      rw [show (-1 : ℝ) * Real.tan st.latitude_rad * Real.tan (solar_declination dn) =
        -(Real.tan st.latitude_rad * Real.tan (solar_declination dn)) by ring,
        abs_neg, abs_mul]
      calc |Real.tan st.latitude_rad| * |Real.tan (solar_declination dn)| ≤
          (1.0477 / 0.4953) * (0.4095 / 0.9146) :=
            mul_le_mul htL htD (abs_nonneg _) (by positivity)
        _ ≤ 1 := by norm_num
    exact abs_le.mp habs
  have hss : sunset_hour_angle st dn =
      some (pyround 3 (Real.arccos (sunset_hour_angle_arg st dn))) := by
    unfold sunset_hour_angle
    rw [if_pos harg]
  refine ⟨by rw [hss]; rfl, ?_, ?_, ?_⟩
  · simp [r_a, hss]
  · simp [daylight_hours, hss]
  · simp [clear_sky_rad, r_a, hss]

/-- C2, witness: the amended statement at the equator station on day 1. -/
theorem c2_amended_witness :
    (sunset_hour_angle c8st 1).isSome = true ∧ (r_a c8st 1).isSome = true ∧
    (daylight_hours c8st 1).isSome = true ∧ (clear_sky_rad c8st 1).isSome = true :=
  c2_amended c8st 1 (by norm_num [c8st]) (by norm_num [c8st]) (by norm_num [c8st])

end Penmon
